import Mathlib

/-!
# go-sqlite-lite, `examples/basic/main.go`

A shallow embedding of the example program (`main2`, `withTx`,
`insertStudents1`, `queryStudents1`) over an explicit database engine.

* The `sqlite3` package the program calls is not part of the embedded source.
  The program is therefore parametrised by an `Engine σ`: one state
  transformer per engine entry point, each returning the Go result of the
  call.  Theorems quantified over `Engine σ` hold whatever the engine answers.
* Every function returns the final engine state, the list of `Event`s it
  performed (engine calls with their results, and printed lines), and its
  result.
* `defer x.Close()` is translated structurally: the body of the function runs,
  then the deferred call runs, and the result of the deferred call is dropped.
* The `for` loop of `queryStudents1` is bounded by a fuel argument counting
  iterations; `Outcome.unfinished` marks a call that has not returned yet, so
  that the events are a prefix of the execution.
-/

namespace SqliteLite

/-! ## Data model -/

/-- A Go `error` value; `msg` is what `Error()` returns. -/
structure Error where
  msg : String
  deriving DecidableEq, Repr

/-- The arguments the program binds: Go strings and ints. -/
inductive Value where
  | text (s : String)
  | integer (i : Int)
  | null
  deriving DecidableEq, Repr

/-- A prepared statement handle (`*sqlite3.Stmt`). -/
abbrev Stmt := Nat

/-- The engine entry points the program calls, with their arguments. -/
inductive Call where
  | Open (target : String)
  | ConnExec (sql : String)
  | Begin
  | Commit
  | Rollback
  | Prepare (sql : String) (args : List Value)
  | Bind (stmt : Stmt) (args : List Value)
  | Step (stmt : Stmt)
  | Reset (stmt : Stmt)
  | Scan (stmt : Stmt)
  | StmtExec (stmt : Stmt) (args : List Value)
  | StmtClose (stmt : Stmt)
  | ConnClose
  deriving DecidableEq, Repr

/-- What an engine call returned. -/
inductive Ret where
  | err (e : Error)
  | ok
  | stmt (s : Stmt)
  | hasRow (b : Bool)
  | row (name : String) (age : Int)
  deriving DecidableEq, Repr

/-- One observable action of the program. -/
inductive Event where
  | call (c : Call) (r : Ret)
  | print (line : String)
  deriving DecidableEq, Repr

/-- How a Go function call ends. -/
inductive Outcome where
  | ret (err : Option Error)
  | panic (v : String)
  | unfinished
  deriving DecidableEq, Repr

/-- The database engine, as seen from the program: the state `σ` holds the
database file, the connection and its statements. -/
structure Engine (σ : Type) where
  Open : String → σ → σ × Option Error
  ConnExec : String → σ → σ × Option Error
  Begin : σ → σ × Option Error
  Commit : σ → σ × Option Error
  Rollback : σ → σ × Option Error
  Prepare : String → List Value → σ → σ × Except Error Stmt
  Bind : Stmt → List Value → σ → σ × Option Error
  Step : Stmt → σ → σ × Except Error Bool
  Reset : Stmt → σ → σ × Option Error
  Scan : Stmt → σ → σ × Except Error (String × Int)
  StmtExec : Stmt → List Value → σ → σ × Option Error
  StmtClose : Stmt → σ → σ × Option Error
  ConnClose : σ → σ × Option Error

/-- The result recorded for a call that returns only an error. -/
def Ret.ofErr : Option Error → Ret
  | none => Ret.ok
  | some e => Ret.err e

/-- Go: `fmt.Errorf(pre + "%v", err)`: the text of `err` after the literal
part of the format string. -/
def Errorf (pre : String) (err : Error) : Error :=
  ⟨pre ++ err.msg⟩

/-- A work function `f func() error`: a closure over the connection. -/
abbrev Work (σ : Type) := σ → σ × List Event × Outcome

/-! ## The program -/

/-- Go: `withTx` (main.go:45-60). -/
def withTx {σ : Type} (E : Engine σ) (f : Work σ) (s : σ) : σ × List Event × Outcome :=
  match E.Begin s with
  | (s1, some err) =>
    (s1, [Event.call Call.Begin (Ret.err err)],
      Outcome.ret (some (Errorf "failed to begin transaction: " err)))
  | (s1, none) =>
    match f s1 with
    | (s2, evs, Outcome.ret (some err)) =>
      match E.Rollback s2 with
      | (s3, r) =>
        (s3, Event.call Call.Begin Ret.ok :: (evs ++ [Event.call Call.Rollback (Ret.ofErr r)]),
          Outcome.ret (some err))
    | (s2, evs, Outcome.ret none) =>
      match E.Commit s2 with
      | (s3, some err) =>
        (s3, Event.call Call.Begin Ret.ok :: (evs ++ [Event.call Call.Commit (Ret.err err)]),
          Outcome.ret (some (Errorf "failed to commit transaction: " err)))
      | (s3, none) =>
        (s3, Event.call Call.Begin Ret.ok :: (evs ++ [Event.call Call.Commit Ret.ok]),
          Outcome.ret none)
    | (s2, evs, Outcome.panic v) =>
      (s2, Event.call Call.Begin Ret.ok :: evs, Outcome.panic v)
    | (s2, evs, Outcome.unfinished) =>
      (s2, Event.call Call.Begin Ret.ok :: evs, Outcome.unfinished)

def insertSQL : String := "INSERT INTO student VALUES (?, ?)"

def selectSQL : String := "SELECT * FROM student WHERE age = ?"

def createSQL : String := "CREATE TABLE student(name STRING, age INTEGER)"

/-- Go: `insertStudents1` after the `defer stmt.Close()` (main.go:70-93). -/
def insertStudents1Body {σ : Type} (E : Engine σ) (stmt : Stmt) (s : σ) :
    σ × List Event × Option Error :=
  let bill := [Value.text "Bill", Value.integer 18]
  let tom := [Value.text "Tom", Value.integer 18]
  let john := [Value.text "John", Value.integer 19]
  let bob := [Value.text "Bob", Value.integer 18]
  match E.Bind stmt bill s with
  | (s, some err) =>
    (s, [Event.call (Call.Bind stmt bill) (Ret.err err)],
      some (Errorf "failed to bind arguments: " err))
  | (s, none) =>
  match E.Step stmt s with
  | (s, Except.error err) =>
    (s, [Event.call (Call.Bind stmt bill) Ret.ok, Event.call (Call.Step stmt) (Ret.err err)],
      some (Errorf "failed to step student insert: " err))
  | (s, Except.ok b) =>
  match E.Reset stmt s with
  | (s, some err) =>
    (s, [Event.call (Call.Bind stmt bill) Ret.ok, Event.call (Call.Step stmt) (Ret.hasRow b),
         Event.call (Call.Reset stmt) (Ret.err err)],
      some (Errorf "failed to reset student insert: " err))
  | (s, none) =>
  match E.StmtExec stmt tom s with
  | (s, some err) =>
    (s, [Event.call (Call.Bind stmt bill) Ret.ok, Event.call (Call.Step stmt) (Ret.hasRow b),
         Event.call (Call.Reset stmt) Ret.ok,
         Event.call (Call.StmtExec stmt tom) (Ret.err err)],
      some (Errorf "failed to insert student: " err))
  | (s, none) =>
  match E.StmtExec stmt john s with
  | (s, some err) =>
    (s, [Event.call (Call.Bind stmt bill) Ret.ok, Event.call (Call.Step stmt) (Ret.hasRow b),
         Event.call (Call.Reset stmt) Ret.ok,
         Event.call (Call.StmtExec stmt tom) Ret.ok,
         Event.call (Call.StmtExec stmt john) (Ret.err err)],
      some (Errorf "failed to insert student: " err))
  | (s, none) =>
  match E.StmtExec stmt bob s with
  | (s, some err) =>
    (s, [Event.call (Call.Bind stmt bill) Ret.ok, Event.call (Call.Step stmt) (Ret.hasRow b),
         Event.call (Call.Reset stmt) Ret.ok,
         Event.call (Call.StmtExec stmt tom) Ret.ok,
         Event.call (Call.StmtExec stmt john) Ret.ok,
         Event.call (Call.StmtExec stmt bob) (Ret.err err)],
      some (Errorf "failed to insert student: " err))
  | (s, none) =>
    (s, [Event.call (Call.Bind stmt bill) Ret.ok, Event.call (Call.Step stmt) (Ret.hasRow b),
         Event.call (Call.Reset stmt) Ret.ok,
         Event.call (Call.StmtExec stmt tom) Ret.ok,
         Event.call (Call.StmtExec stmt john) Ret.ok,
         Event.call (Call.StmtExec stmt bob) Ret.ok],
      none)

/-- Go: `insertStudents1` (main.go:62-94). -/
def insertStudents1 {σ : Type} (E : Engine σ) (s : σ) : σ × List Event × Option Error :=
  match E.Prepare insertSQL [] s with
  | (s1, Except.error err) =>
    (s1, [Event.call (Call.Prepare insertSQL []) (Ret.err err)],
      some (Errorf "failed to prepare to insert to students table: " err))
  | (s1, Except.ok stmt) =>
    match insertStudents1Body E stmt s1 with
    | (s2, evs, r) =>
      match E.StmtClose stmt s2 with
      | (s3, c) =>
        (s3, Event.call (Call.Prepare insertSQL []) (Ret.stmt stmt) ::
               (evs ++ [Event.call (Call.StmtClose stmt) (Ret.ofErr c)]), r)

/-- Go: the closure `func() error { return insertStudents1(conn) }`
(main.go:28-30). -/
def insertWork {σ : Type} (E : Engine σ) : Work σ :=
  fun s =>
    match insertStudents1 E s with
    | (s1, evs, r) => (s1, evs, Outcome.ret r)

/-- Go: `fmt.Println("name:", name, "age:", age)`. -/
def printLine (name : String) (age : Int) : String :=
  "name: " ++ name ++ " age: " ++ toString age

/-- Go: the `for` loop of `queryStudents1` (main.go:104-122), at most `fuel`
iterations. `Outcome.ret none` is the `break`. -/
def queryLoop {σ : Type} (E : Engine σ) (stmt : Stmt) : Nat → σ → σ × List Event × Outcome
  | 0, s => (s, [], Outcome.unfinished)
  | fuel + 1, s =>
    match E.Step stmt s with
    | (s1, Except.error err) =>
      (s1, [Event.call (Call.Step stmt) (Ret.err err)],
        Outcome.ret (some (Errorf "step failed while querying students: " err)))
    | (s1, Except.ok false) =>
      (s1, [Event.call (Call.Step stmt) (Ret.hasRow false)], Outcome.ret none)
    | (s1, Except.ok true) =>
      match E.Scan stmt s1 with
      | (s2, Except.error err) =>
        (s2, [Event.call (Call.Step stmt) (Ret.hasRow true),
              Event.call (Call.Scan stmt) (Ret.err err)],
          Outcome.ret (some (Errorf "scan failed while querying students: " err)))
      | (s2, Except.ok (name, age)) =>
        match queryLoop E stmt fuel s2 with
        | (s3, evs, o) =>
          (s3, Event.call (Call.Step stmt) (Ret.hasRow true) ::
                 Event.call (Call.Scan stmt) (Ret.row name age) ::
                 Event.print (printLine name age) :: evs, o)

/-- Go: `queryStudents1` (main.go:96-125). The deferred `stmt.Close()` runs
when the loop has returned. -/
def queryStudents1 {σ : Type} (E : Engine σ) (fuel : Nat) (s : σ) : σ × List Event × Outcome :=
  match E.Prepare selectSQL [Value.integer 18] s with
  | (s1, Except.error err) =>
    (s1, [Event.call (Call.Prepare selectSQL [Value.integer 18]) (Ret.err err)],
      Outcome.ret (some (Errorf "failed to select from students table: " err)))
  | (s1, Except.ok stmt) =>
    match queryLoop E stmt fuel s1 with
    | (s2, evs, Outcome.unfinished) =>
      (s2, Event.call (Call.Prepare selectSQL [Value.integer 18]) (Ret.stmt stmt) :: evs,
        Outcome.unfinished)
    | (s2, evs, o) =>
      match E.StmtClose stmt s2 with
      | (s3, c) =>
        (s3, Event.call (Call.Prepare selectSQL [Value.integer 18]) (Ret.stmt stmt) ::
               (evs ++ [Event.call (Call.StmtClose stmt) (Ret.ofErr c)]), o)

/-- Go: `main2` after the `defer conn.Close()` (main.go:23-40). -/
def main2Body {σ : Type} (E : Engine σ) (fuel : Nat) (s : σ) : σ × List Event × Outcome :=
  match E.ConnExec createSQL s with
  | (s1, some err) =>
    (s1, [Event.call (Call.ConnExec createSQL) (Ret.err err)],
      Outcome.ret (some (Errorf "failed to create students table: " err)))
  | (s1, none) =>
    match withTx E (insertWork E) s1 with
    | (s2, evs, Outcome.ret (some err)) =>
      (s2, Event.call (Call.ConnExec createSQL) Ret.ok :: evs,
        Outcome.ret (some (Errorf "failed to insert students: " err)))
    | (s2, evs, Outcome.ret none) =>
      match queryStudents1 E fuel s2 with
      | (s3, evs2, Outcome.ret (some err)) =>
        (s3, Event.call (Call.ConnExec createSQL) Ret.ok :: (evs ++ evs2),
          Outcome.ret (some (Errorf "failed to query students: " err)))
      | (s3, evs2, o) =>
        (s3, Event.call (Call.ConnExec createSQL) Ret.ok :: (evs ++ evs2), o)
    | (s2, evs, o) =>
      (s2, Event.call (Call.ConnExec createSQL) Ret.ok :: evs, o)

/-- Go: `main2` (main.go:16-41). The deferred `conn.Close()` runs when the
body has returned or panicked; its error is dropped. -/
def main2 {σ : Type} (E : Engine σ) (fuel : Nat) (s : σ) : σ × List Event × Outcome :=
  match E.Open "mydatabase.db" s with
  | (s1, some err) =>
    (s1, [Event.call (Call.Open "mydatabase.db") (Ret.err err)],
      Outcome.ret (some (Errorf "failed to open database: " err)))
  | (s1, none) =>
    match main2Body E fuel s1 with
    | (s2, evs, Outcome.unfinished) =>
      (s2, Event.call (Call.Open "mydatabase.db") Ret.ok :: evs, Outcome.unfinished)
    | (s2, evs, o) =>
      match E.ConnClose s2 with
      | (s3, c) =>
        (s3, Event.call (Call.Open "mydatabase.db") Ret.ok ::
               (evs ++ [Event.call Call.ConnClose (Ret.ofErr c)]), o)

/-! ## A scripted engine

An engine that numbers its calls and fails exactly the calls listed in
`failAt`; its statements deliver `rows` rows. It gives concrete executions in
which a chosen call fails. -/

structure Script where
  calls : Nat
  failAt : List Nat
  rows : Nat
  deriving DecidableEq, Repr

/-- Count one call; the call fails when its number is listed in `failAt`. -/
def Script.tick (m : Script) : Script × Option Error :=
  ({ m with calls := m.calls + 1 },
    if m.calls ∈ m.failAt then some ⟨"call " ++ toString m.calls ++ " failed"⟩ else none)

def scriptedEngine : Engine Script where
  Open := fun _ m => m.tick
  ConnExec := fun _ m => m.tick
  Begin := fun m => m.tick
  Commit := fun m => m.tick
  Rollback := fun m => m.tick
  Prepare := fun _ _ m =>
    match m.tick with
    | (m1, some e) => (m1, Except.error e)
    | (m1, none) => (m1, Except.ok m.calls)
  Bind := fun _ _ m => m.tick
  Step := fun _ m =>
    match m.tick with
    | (m1, some e) => (m1, Except.error e)
    | (m1, none) => ({ m1 with rows := m1.rows - 1 }, Except.ok (decide (0 < m1.rows)))
  Reset := fun _ m => m.tick
  Scan := fun _ m =>
    match m.tick with
    | (m1, some e) => (m1, Except.error e)
    | (m1, none) => (m1, Except.ok ("student", Int.ofNat m1.rows))
  StmtExec := fun _ _ m => m.tick
  StmtClose := fun _ m => m.tick
  ConnClose := fun m => m.tick

/-! ## The engine of the specification

The `sqlite3` package is not part of the embedded source. The definitions of
this section follow the specification's description of the client library
(sections 3, 4.1, 4.3, 4.4): a connection with a transaction mode, prepared
statements with a cursor state, and the three SQL texts of the program. -/

/-- Modelled from the spec: a row of the `student` table held by the missing
engine, the stored `name` and `age` values. -/
structure Row where
  name : Value
  age : Value
  deriving DecidableEq, Repr

/-- Modelled from the spec: the compiled query of a statement of the missing
`sqlite3` package, for the two SQL texts the program prepares. -/
inductive Query where
  | insertStudent
  | selectByAge
  deriving DecidableEq, Repr

/-- Modelled from the spec: the number of parameter slots of a compiled query
of the missing `sqlite3` package. -/
def Query.arity : Query → Nat
  | Query.insertStudent => 2
  | Query.selectByAge => 1

/-- Modelled from the spec: the cursor state of a statement of the missing
`sqlite3` package (section 3: ready, has-row, done, closed); `hasRow` carries
the current row and the rows still to come. -/
inductive Cursor where
  | ready
  | hasRow (current : Row) (rest : List Row)
  | done
  | closed
  deriving DecidableEq, Repr

/-- Modelled from the spec: a statement of the missing `sqlite3` package, a
compiled query with its bound parameters and cursor state. -/
structure Statement where
  query : Query
  params : List Value
  cursor : Cursor
  deriving DecidableEq, Repr

/-- Modelled from the spec: the state of the `sqlite3` connection, which is
missing from the source. `committed` holds the persisted rows of `student`,
`pending` the rows written since `Begin` while a transaction is active;
statement handles index `stmts`. -/
structure DB where
  isOpen : Bool
  hasTable : Bool
  committed : List Row
  txActive : Bool
  pending : List Row
  stmts : List Statement
  deriving DecidableEq, Repr

/-- Modelled from the spec: the empty database of the missing engine, with no
connection, no table and no rows. -/
def DB.empty : DB :=
  { isOpen := false, hasTable := false, committed := [], txActive := false,
    pending := [], stmts := [] }

/-- Modelled from the spec: the rows a statement of the missing engine sees,
committed rows, then those of the active transaction. -/
def DB.visible (db : DB) : List Row :=
  db.committed ++ db.pending

/-- Modelled from the spec: the missing engine writes one row, into the
active transaction, or directly when none is active. -/
def DB.write (db : DB) (r : Row) : DB :=
  if db.txActive then { db with pending := db.pending ++ [r] }
  else { db with committed := db.committed ++ [r] }

/-- Modelled from the spec: the missing engine replaces the statement behind
handle `h`. -/
def DB.setStmt (db : DB) (h : Stmt) (st : Statement) : DB :=
  { db with stmts := db.stmts.set h st }

/-- Modelled from the spec: the missing engine compiles the SQL texts the
program prepares. -/
def compile (sql : String) : Option Query :=
  if sql = insertSQL then some Query.insertStudent
  else if sql = selectSQL then some Query.selectByAge
  else none

namespace Spec

/-- Modelled from the spec: `Open(target)` of the missing `sqlite3` package. -/
def Open (_target : String) (db : DB) : DB × Option Error :=
  ({ db with isOpen := true }, none)

/-- Modelled from the spec: `Exec(sqlText)` of the missing `sqlite3`
connection, for the schema statement of the program. -/
def ConnExec (sql : String) (db : DB) : DB × Option Error :=
  if sql = createSQL then
    if db.hasTable then (db, some ⟨"ExecError: table student already exists"⟩)
    else ({ db with hasTable := true }, none)
  else (db, some ⟨"ExecError: unsupported statement"⟩)

/-- Modelled from the spec: `Begin()` of the missing `sqlite3` connection;
fails if a transaction is already active. -/
def Begin (db : DB) : DB × Option Error :=
  if db.txActive then (db, some ⟨"TxError: transaction already active"⟩)
  else ({ db with txActive := true, pending := [] }, none)

/-- Modelled from the spec: `Commit()` of the missing `sqlite3` connection;
fails if no transaction is active, persists all work since `Begin`. -/
def Commit (db : DB) : DB × Option Error :=
  if db.txActive then
    ({ db with committed := db.committed ++ db.pending, pending := [], txActive := false }, none)
  else (db, some ⟨"TxError: no transaction is active"⟩)

/-- Modelled from the spec: `Rollback()` of the missing `sqlite3` connection;
fails if no transaction is active, drops the work since `Begin`. -/
def Rollback (db : DB) : DB × Option Error :=
  if db.txActive then ({ db with pending := [], txActive := false }, none)
  else (db, some ⟨"TxError: no transaction is active"⟩)

/-- Modelled from the spec: positional binding with strict arity; no argument
leaves every slot null. -/
def bindArgs (q : Query) (args : List Value) : Except Error (List Value) :=
  if args = [] then Except.ok (List.replicate q.arity Value.null)
  else if args.length = q.arity then Except.ok args
  else Except.error ⟨"BindError: wrong number of arguments"⟩

/-- Modelled from the spec: `Prepare(sqlText, args...)` of the missing
`sqlite3` connection. -/
def Prepare (sql : String) (args : List Value) (db : DB) : DB × Except Error Stmt :=
  match compile sql with
  | none => (db, Except.error ⟨"PrepareError: unsupported statement"⟩)
  | some q =>
    if db.hasTable then
      match bindArgs q args with
      | Except.error e => (db, Except.error e)
      | Except.ok ps =>
        ({ db with stmts := db.stmts ++ [{ query := q, params := ps, cursor := Cursor.ready }] },
          Except.ok db.stmts.length)
    else (db, Except.error ⟨"PrepareError: no such table: student"⟩)

/-- Modelled from the spec: `Bind(args...)` of a missing `sqlite3` statement;
valid only in the ready state. -/
def Bind (h : Stmt) (args : List Value) (db : DB) : DB × Option Error :=
  match db.stmts[h]? with
  | none => (db, some ⟨"BindError: no such statement"⟩)
  | some st =>
    match st.cursor with
    | Cursor.ready =>
      if args.length = st.query.arity then (db.setStmt h { st with params := args }, none)
      else (db, some ⟨"BindError: wrong number of arguments"⟩)
    | _ => (db, some ⟨"BindError: statement is not ready"⟩)

/-- Modelled from the spec: the rows of `student` the missing engine selects
for `WHERE age = ?`. -/
def selectRows (db : DB) (params : List Value) : List Row :=
  db.visible.filter (fun r => decide (some r.age = params.head?))

/-- Modelled from the spec: `Step()` of a missing `sqlite3` statement. -/
def Step (h : Stmt) (db : DB) : DB × Except Error Bool :=
  match db.stmts[h]? with
  | none => (db, Except.error ⟨"StepError: no such statement"⟩)
  | some st =>
    match st.cursor with
    | Cursor.closed => (db, Except.error ⟨"StepError: statement is closed"⟩)
    | Cursor.done => (db, Except.error ⟨"StepError: statement is done"⟩)
    | Cursor.hasRow _ [] => (db.setStmt h { st with cursor := Cursor.done }, Except.ok false)
    | Cursor.hasRow _ (r :: rest) =>
      (db.setStmt h { st with cursor := Cursor.hasRow r rest }, Except.ok true)
    | Cursor.ready =>
      match st.query with
      | Query.insertStudent =>
        match st.params with
        | [n, a] =>
          ((db.write { name := n, age := a }).setStmt h { st with cursor := Cursor.done },
            Except.ok false)
        | _ => (db, Except.error ⟨"StepError: parameters are not bound"⟩)
      | Query.selectByAge =>
        match selectRows db st.params with
        | [] => (db.setStmt h { st with cursor := Cursor.done }, Except.ok false)
        | r :: rest => (db.setStmt h { st with cursor := Cursor.hasRow r rest }, Except.ok true)

/-- Modelled from the spec: `Reset()` of a missing `sqlite3` statement;
bindings are retained. -/
def Reset (h : Stmt) (db : DB) : DB × Option Error :=
  match db.stmts[h]? with
  | none => (db, some ⟨"ResetError: no such statement"⟩)
  | some st =>
    match st.cursor with
    | Cursor.closed => (db, some ⟨"ResetError: statement is closed"⟩)
    | _ => (db.setStmt h { st with cursor := Cursor.ready }, none)

/-- Modelled from the spec: `Scan(&name, &age)` of a missing `sqlite3`
statement; valid only in the has-row state, text to string and integer to
int. -/
def Scan (h : Stmt) (db : DB) : DB × Except Error (String × Int) :=
  match db.stmts[h]? with
  | none => (db, Except.error ⟨"ScanError: no such statement"⟩)
  | some st =>
    match st.cursor with
    | Cursor.hasRow { name := Value.text n, age := Value.integer a } _ => (db, Except.ok (n, a))
    | Cursor.hasRow _ _ => (db, Except.error ⟨"ScanError: incompatible column type"⟩)
    | _ => (db, Except.error ⟨"ScanError: no row available"⟩)

/-- Modelled from the spec: the Step loop of `Exec` of a missing `sqlite3`
statement, stepping until no row is left or a step fails. -/
def drain (h : Stmt) : Nat → DB → DB × Option Error
  | 0, db => (db, some ⟨"StepError: too many rows"⟩)
  | fuel + 1, db =>
    match Step h db with
    | (db1, Except.error e) => (db1, some e)
    | (db1, Except.ok false) => (db1, none)
    | (db1, Except.ok true) => drain h fuel db1

/-- Modelled from the spec: `Exec(args...)` of a missing `sqlite3` statement:
Bind, Step until no row is left, and always Reset; the first error wins. -/
def StmtExec (h : Stmt) (args : List Value) (db : DB) : DB × Option Error :=
  match Bind h args db with
  | (db1, some e) => ((Reset h db1).1, some e)
  | (db1, none) =>
    match drain h (db1.visible.length + 2) db1 with
    | (db2, some e) => ((Reset h db2).1, some e)
    | (db2, none) => Reset h db2

/-- Modelled from the spec: `Close()` of a missing `sqlite3` statement; valid
from any state, idempotent. -/
def StmtClose (h : Stmt) (db : DB) : DB × Option Error :=
  match db.stmts[h]? with
  | none => (db, none)
  | some st => (db.setStmt h { st with cursor := Cursor.closed }, none)

/-- Modelled from the spec: `Close()` of the missing `sqlite3` connection;
fails if a statement is still open, no-op on a closed connection. -/
def ConnClose (db : DB) : DB × Option Error :=
  if db.stmts.all (fun st => decide (st.cursor = Cursor.closed)) then
    ({ db with isOpen := false }, none)
  else (db, some ⟨"CloseError: statements are still open"⟩)

end Spec

/-- Modelled from the spec: the missing `sqlite3` package as an engine. -/
def specEngine : Engine DB where
  Open := Spec.Open
  ConnExec := Spec.ConnExec
  Begin := Spec.Begin
  Commit := Spec.Commit
  Rollback := Spec.Rollback
  Prepare := Spec.Prepare
  Bind := Spec.Bind
  Step := Spec.Step
  Reset := Spec.Reset
  Scan := Spec.Scan
  StmtExec := Spec.StmtExec
  StmtClose := Spec.StmtClose
  ConnClose := Spec.ConnClose

/-! ## Observations on event lists -/

/-- The event is a call of the engine entry point `c`. -/
def isCall (c : Call) : Event → Bool
  | Event.call c1 _ => decide (c1 = c)
  | Event.print _ => false

/-- Number of calls of `c` in a list of events. -/
def countCall (c : Call) (evs : List Event) : Nat :=
  evs.countP (isCall c)

/-- A work function that panics at once. -/
def panicWork {σ : Type} (v : String) : Work σ :=
  fun s => (s, [], Outcome.panic v)

/-- The row read by the event, when it is a successful Scan. -/
def scanned : Event → Option (String × Int)
  | Event.call (Call.Scan _) (Ret.row name age) => some (name, age)
  | _ => none

/-- The rows read by successful Scan calls, in order. -/
def scannedRows (evs : List Event) : List (String × Int) :=
  evs.filterMap scanned

/-- The result of the event, when it is a Step call on statement `h`. -/
def stepped (h : Stmt) : Event → Option Ret
  | Event.call (Call.Step h1) r => if h1 = h then some r else none
  | _ => none

/-- The results of the Step calls on statement `h`, in order. -/
def stepResults (h : Stmt) (evs : List Event) : List Ret :=
  evs.filterMap (stepped h)

/-- The event is an engine call (not a printed line). -/
def isEngineCall : Event → Bool
  | Event.call _ _ => true
  | Event.print _ => false

/-- The event is a Step call. -/
def isStep : Event → Bool
  | Event.call (Call.Step _) _ => true
  | _ => false

/-- The event is a Scan call. -/
def isScan : Event → Bool
  | Event.call (Call.Scan _) _ => true
  | _ => false

/-- The event is a Step call that did not deliver a row: it returned
`hasRow = false` or an error. -/
def isStopStep : Event → Bool
  | Event.call (Call.Step _) (Ret.hasRow true) => false
  | Event.call (Call.Step _) _ => true
  | _ => false

/-- The event is a Close call on a statement. -/
def isStmtClose : Event → Bool
  | Event.call (Call.StmtClose _) _ => true
  | _ => false

/-- The event is a Prepare call. -/
def isPrepare : Event → Bool
  | Event.call (Call.Prepare _ _) _ => true
  | _ => false

/-- Neither a Prepare nor a Close of a statement or of the connection. -/
def isPlain : Event → Bool
  | Event.call (Call.Prepare _ _) _ => false
  | Event.call (Call.StmtClose _) _ => false
  | Event.call Call.ConnClose _ => false
  | _ => true

/-- The statements open after the events, given those open before: a
successful Prepare opens the statement it returns, Close closes it. -/
def openAfter : List Stmt → List Event → List Stmt
  | live, [] => live
  | live, Event.call (Call.Prepare _ _) (Ret.stmt h) :: evs => openAfter (h :: live) evs
  | live, Event.call (Call.StmtClose h) _ :: evs => openAfter (live.erase h) evs
  | live, _ :: evs => openAfter live evs

/-- The events open no statement that they do not close, and do not close
the connection. -/
def Balanced (evs : List Event) : Prop :=
  (∀ live, openAfter live evs = live) ∧ countCall Call.ConnClose evs = 0

/-- The event is an engine call that returned an error. -/
def failedCall : Event → Bool
  | Event.call _ (Ret.err _) => true
  | _ => false

/-- A work function that runs `f` and, when `f` returned nil, fails with `e`. -/
def thenFail {σ : Type} (f : Work σ) (e : Error) : Work σ :=
  fun s =>
    match f s with
    | (s1, evs, Outcome.ret none) => (s1, evs, Outcome.ret (some e))
    | (s1, evs, o) => (s1, evs, o)

/-- A work function that runs `insertStudents1`, then commits by itself and
fails with `e`: Go `func() error { insertStudents1(conn); conn.Commit();
return e }`. -/
def commitThenFail {σ : Type} (E : Engine σ) (e : Error) : Work σ :=
  fun s =>
    match insertStudents1 E s with
    | (s1, evs, _) =>
      match E.Commit s1 with
      | (s2, c) => (s2, evs ++ [Event.call Call.Commit (Ret.ofErr c)], Outcome.ret (some e))

/-- A work function that runs `insertStudents1`, then rolls back by itself
and returns nil: Go `func() error { insertStudents1(conn); conn.Rollback();
return nil }`. -/
def rollbackThenOk {σ : Type} (E : Engine σ) : Work σ :=
  fun s =>
    match insertStudents1 E s with
    | (s1, evs, _) =>
      match E.Rollback s1 with
      | (s2, c) => (s2, evs ++ [Event.call Call.Rollback (Ret.ofErr c)], Outcome.ret none)

/-- The connection is inside a transaction and its committed rows are `c`. -/
def InTx (c : List Row) (db : DB) : Prop :=
  db.txActive = true ∧ db.committed = c

/-- Modelled from the spec: the database of the missing engine after `Open`
and `CREATE TABLE`. -/
def DB.withTable : DB :=
  { isOpen := true, hasTable := true, committed := [], txActive := false,
    pending := [], stmts := [] }

/-- The four rows `insertStudents1` writes, in order. -/
def studentRows : List Row :=
  [{ name := Value.text "Bill", age := Value.integer 18 },
   { name := Value.text "Tom", age := Value.integer 18 },
   { name := Value.text "John", age := Value.integer 19 },
   { name := Value.text "Bob", age := Value.integer 18 }]

/-- The calls that release a resource or undo a transaction: statement
Close, connection Close and Rollback. The program drops their errors. -/
def isCleanup : Event → Bool
  | Event.call (Call.StmtClose _) _ => true
  | Event.call Call.ConnClose _ => true
  | Event.call Call.Rollback _ => true
  | _ => false

/-- A failed engine call other than a cleanup call. -/
def uncaught (ev : Event) : Bool :=
  failedCall ev && !isCleanup ev

/-- The function returned a non-nil error. -/
def Outcome.isError : Outcome → Bool
  | Outcome.ret (some _) => true
  | _ => false

/-- Error propagation over the events of a call that ended with `o`: a failed
engine call (other than cleanup) makes the function return a non-nil error,
and every event after it is a cleanup call. -/
def Propagates (evs : List Event) (o : Outcome) : Prop :=
  (∀ ev ∈ evs, uncaught ev = true → o.isError = true)
    ∧ evs.Pairwise (fun ev later => uncaught ev = true → isCleanup later = true)

/-- A Scan event directly follows the Step on the same statement that
delivered a row. -/
def ScanAfterRowStep (prev ev : Event) : Prop :=
  ∀ h, isCall (Call.Scan h) ev = true → prev = Event.call (Call.Step h) (Ret.hasRow true)

/-- After a Step that delivered no row, a later event is neither a Step nor
a Scan. -/
def StopIsFinal (ev later : Event) : Prop :=
  isStopStep ev = true → isStep later = false ∧ isScan later = false

/-! ## `withTx` -/

theorem countCall_cons (c : Call) (e : Event) (evs : List Event) :
    countCall c (e :: evs) = countCall c evs + (if isCall c e then 1 else 0) := by
  simp [countCall, List.countP_cons]

theorem countCall_append (c : Call) (xs ys : List Event) :
    countCall c (xs ++ ys) = countCall c xs + countCall c ys := by
  simp [countCall, List.countP_append]

theorem countCall_nil (c : Call) : countCall c [] = 0 := rfl

/-- The path of `withTx` on which Begin fails. -/
theorem withTx_eq_of_begin_error {σ : Type} (E : Engine σ) (f : Work σ) (s s1 : σ) (e : Error)
    (hb : E.Begin s = (s1, some e)) :
    withTx E f s =
      (s1, [Event.call Call.Begin (Ret.err e)],
        Outcome.ret (some ⟨"failed to begin transaction: " ++ e.msg⟩)) := by
  simp only [withTx, hb, Errorf]

/-- The path of `withTx` on which the work function returns an error. -/
theorem withTx_eq_of_work_error {σ : Type} (E : Engine σ) (f : Work σ) (s s1 s2 : σ)
    (evs : List Event) (e : Error)
    (hb : E.Begin s = (s1, none)) (hf : f s1 = (s2, evs, Outcome.ret (some e))) :
    withTx E f s =
      ((E.Rollback s2).1,
        Event.call Call.Begin Ret.ok ::
          (evs ++ [Event.call Call.Rollback (Ret.ofErr (E.Rollback s2).2)]),
        Outcome.ret (some e)) := by
  simp only [withTx, hb, hf]

/-- The path of `withTx` on which the work function returns nil. -/
theorem withTx_eq_of_work_ok {σ : Type} (E : Engine σ) (f : Work σ) (s s1 s2 : σ)
    (evs : List Event)
    (hb : E.Begin s = (s1, none)) (hf : f s1 = (s2, evs, Outcome.ret none)) :
    withTx E f s =
      ((E.Commit s2).1,
        Event.call Call.Begin Ret.ok ::
          (evs ++ [Event.call Call.Commit (Ret.ofErr (E.Commit s2).2)]),
        match (E.Commit s2).2 with
        | none => Outcome.ret none
        | some ce => Outcome.ret (some ⟨"failed to commit transaction: " ++ ce.msg⟩)) := by
  cases hc : E.Commit s2 with
  | mk s3 c =>
    cases c with
    | none => simp only [withTx, hb, hf, hc, Ret.ofErr]
    | some ce => simp only [withTx, hb, hf, hc, Ret.ofErr, Errorf]

/-- The path of `withTx` on which the work function panics. -/
theorem withTx_eq_of_work_panic {σ : Type} (E : Engine σ) (f : Work σ) (s s1 s2 : σ)
    (evs : List Event) (v : String)
    (hb : E.Begin s = (s1, none)) (hf : f s1 = (s2, evs, Outcome.panic v)) :
    withTx E f s = (s2, Event.call Call.Begin Ret.ok :: evs, Outcome.panic v) := by
  simp only [withTx, hb, hf]

/-- C1: when Begin succeeds and the work function returns the error `e`,
`withTx` performs Begin, the work, and then Rollback once; it never calls
Commit, and returns `e` itself, whatever Rollback returns. -/
theorem withTx_work_error {σ : Type} (E : Engine σ) (f : Work σ) (s s1 s2 : σ)
    (evs : List Event) (e : Error)
    (hb : E.Begin s = (s1, none)) (hf : f s1 = (s2, evs, Outcome.ret (some e))) :
    (withTx E f s).2.2 = Outcome.ret (some e)
      ∧ (withTx E f s).2.1 =
          Event.call Call.Begin Ret.ok ::
            (evs ++ [Event.call Call.Rollback (Ret.ofErr (E.Rollback s2).2)])
      ∧ countCall Call.Rollback (withTx E f s).2.1 = countCall Call.Rollback evs + 1
      ∧ countCall Call.Commit (withTx E f s).2.1 = countCall Call.Commit evs := by
  rw [withTx_eq_of_work_error E f s s1 s2 evs e hb hf]
  simp [countCall_cons, countCall_append, countCall_nil, isCall]

/-- Witness for C1: Begin succeeds, Bind fails inside the work function, and
Rollback fails as well (calls 2 and 4 of the script). -/
theorem withTx_work_error_witness :
    scriptedEngine.Begin ⟨0, [2, 4], 0⟩ = (⟨1, [2, 4], 0⟩, none)
      ∧ (scriptedEngine.Rollback ⟨4, [2, 4], 0⟩).2 = some ⟨"call 4 failed"⟩
      ∧ (withTx scriptedEngine (insertWork scriptedEngine) ⟨0, [2, 4], 0⟩).2.2
          = Outcome.ret (some ⟨"failed to bind arguments: call 2 failed"⟩)
      ∧ countCall Call.Rollback
          (withTx scriptedEngine (insertWork scriptedEngine) ⟨0, [2, 4], 0⟩).2.1 = 1
      ∧ countCall Call.Commit
          (withTx scriptedEngine (insertWork scriptedEngine) ⟨0, [2, 4], 0⟩).2.1 = 0 := by
  have h := withTx_work_error scriptedEngine (insertWork scriptedEngine)
    ⟨0, [2, 4], 0⟩ ⟨1, [2, 4], 0⟩ ⟨4, [2, 4], 0⟩
    [Event.call (Call.Prepare insertSQL []) (Ret.stmt 1),
     Event.call (Call.Bind 1 [Value.text "Bill", Value.integer 18])
       (Ret.err ⟨"call 2 failed"⟩),
     Event.call (Call.StmtClose 1) Ret.ok]
    ⟨"failed to bind arguments: call 2 failed"⟩ (by decide) (by decide)
  refine ⟨by decide, by decide, h.1, ?_, ?_⟩
  · rw [h.2.2.1]; decide
  · rw [h.2.2.2]; decide

/-- C2: when Begin succeeds and the work function returns nil, `withTx`
performs Begin, the work, and then Commit once; it never calls Rollback; it
returns nil exactly when Commit returns nil, and otherwise the error
"failed to commit transaction: " followed by Commit's error text. -/
theorem withTx_work_ok {σ : Type} (E : Engine σ) (f : Work σ) (s s1 s2 : σ)
    (evs : List Event)
    (hb : E.Begin s = (s1, none)) (hf : f s1 = (s2, evs, Outcome.ret none)) :
    (withTx E f s).2.1 =
          Event.call Call.Begin Ret.ok ::
            (evs ++ [Event.call Call.Commit (Ret.ofErr (E.Commit s2).2)])
      ∧ countCall Call.Commit (withTx E f s).2.1 = countCall Call.Commit evs + 1
      ∧ countCall Call.Rollback (withTx E f s).2.1 = countCall Call.Rollback evs
      ∧ ((withTx E f s).2.2 = Outcome.ret none ↔ (E.Commit s2).2 = none)
      ∧ (∀ ce : Error, (E.Commit s2).2 = some ce →
          (withTx E f s).2.2
            = Outcome.ret (some ⟨"failed to commit transaction: " ++ ce.msg⟩)) := by
  rw [withTx_eq_of_work_ok E f s s1 s2 evs hb hf]
  cases (E.Commit s2).2 <;>
    simp [countCall_cons, countCall_append, countCall_nil, isCall]

/-- Witness for C2: every call of the work function succeeds and Commit fails
(call 9 of the script). -/
theorem withTx_work_ok_witness :
    scriptedEngine.Begin ⟨0, [9], 0⟩ = (⟨1, [9], 0⟩, none)
      ∧ (insertWork scriptedEngine ⟨1, [9], 0⟩).2.2 = Outcome.ret none
      ∧ countCall Call.Commit
          (withTx scriptedEngine (insertWork scriptedEngine) ⟨0, [9], 0⟩).2.1 = 1
      ∧ countCall Call.Rollback
          (withTx scriptedEngine (insertWork scriptedEngine) ⟨0, [9], 0⟩).2.1 = 0
      ∧ (withTx scriptedEngine (insertWork scriptedEngine) ⟨0, [9], 0⟩).2.2
          = Outcome.ret (some ⟨"failed to commit transaction: call 9 failed"⟩) := by
  have h := withTx_work_ok scriptedEngine (insertWork scriptedEngine)
    ⟨0, [9], 0⟩ ⟨1, [9], 0⟩ (insertWork scriptedEngine ⟨1, [9], 0⟩).1
    (insertWork scriptedEngine ⟨1, [9], 0⟩).2.1 (by decide) (by decide)
  refine ⟨by decide, by decide, ?_, ?_, ?_⟩
  · rw [h.2.1]; decide
  · rw [h.2.2.1]; decide
  · exact h.2.2.2.2 ⟨"call 9 failed"⟩ (by decide)

/-- C10: when Begin fails with `e`, `withTx` stops right after Begin: the
work function is not run (state, events and result do not depend on it),
neither Commit nor Rollback is called, and the error returned is
"failed to begin transaction: " followed by the text of `e`. -/
theorem withTx_begin_error {σ : Type} (E : Engine σ) (f : Work σ) (s s1 : σ) (e : Error)
    (hb : E.Begin s = (s1, some e)) :
    withTx E f s =
        (s1, [Event.call Call.Begin (Ret.err e)],
          Outcome.ret (some ⟨"failed to begin transaction: " ++ e.msg⟩))
      ∧ countCall Call.Commit (withTx E f s).2.1 = 0
      ∧ countCall Call.Rollback (withTx E f s).2.1 = 0 := by
  rw [withTx_eq_of_begin_error E f s s1 e hb]
  simp [countCall_cons, countCall_nil, isCall]

/-- Witness for C10: Begin is call 0 of the script and fails. -/
theorem withTx_begin_error_witness :
    scriptedEngine.Begin ⟨0, [0], 0⟩ = (⟨1, [0], 0⟩, some ⟨"call 0 failed"⟩)
      ∧ withTx scriptedEngine (insertWork scriptedEngine) ⟨0, [0], 0⟩ =
          (⟨1, [0], 0⟩, [Event.call Call.Begin (Ret.err ⟨"call 0 failed"⟩)],
            Outcome.ret (some ⟨"failed to begin transaction: call 0 failed"⟩)) :=
  ⟨by decide,
    (withTx_begin_error scriptedEngine (insertWork scriptedEngine)
      ⟨0, [0], 0⟩ ⟨1, [0], 0⟩ ⟨"call 0 failed"⟩ (by decide)).1⟩

/-- C3, as stated, fails: when Begin fails, and when the work function
panics, `withTx` calls neither Commit nor Rollback. -/
theorem withTx_exactly_one_counterexample :
    (countCall Call.Commit
          (withTx scriptedEngine (insertWork scriptedEngine) ⟨0, [0], 0⟩).2.1
        + countCall Call.Rollback
          (withTx scriptedEngine (insertWork scriptedEngine) ⟨0, [0], 0⟩).2.1 = 0)
      ∧ (withTx scriptedEngine (panicWork "boom") ⟨0, [], 0⟩).2.2 = Outcome.panic "boom"
      ∧ (countCall Call.Commit (withTx scriptedEngine (panicWork "boom") ⟨0, [], 0⟩).2.1
        + countCall Call.Rollback
          (withTx scriptedEngine (panicWork "boom") ⟨0, [], 0⟩).2.1 = 0) := by
  decide

/-- C3, amended: when Begin succeeds and the work function returns (an error
or nil), `withTx` itself calls exactly one of Commit and Rollback, once, as
its last action: Rollback after an error, Commit after nil. When Begin fails
neither is called, and when the work function panics the panic propagates
and `withTx` calls neither. -/
theorem withTx_exactly_one {σ : Type} (E : Engine σ) (f : Work σ) (s : σ) :
    (∀ s1 s2 evs r, E.Begin s = (s1, none) → f s1 = (s2, evs, Outcome.ret r) →
        countCall Call.Commit (withTx E f s).2.1
            + countCall Call.Rollback (withTx E f s).2.1
          = countCall Call.Commit evs + countCall Call.Rollback evs + 1
        ∧ (r = none → ∃ c, (withTx E f s).2.1
              = Event.call Call.Begin Ret.ok :: (evs ++ [Event.call Call.Commit c]))
        ∧ (r ≠ none → ∃ c, (withTx E f s).2.1
              = Event.call Call.Begin Ret.ok :: (evs ++ [Event.call Call.Rollback c])))
      ∧ (∀ s1 e, E.Begin s = (s1, some e) →
          countCall Call.Commit (withTx E f s).2.1
            + countCall Call.Rollback (withTx E f s).2.1 = 0)
      ∧ (∀ s1 s2 evs v, E.Begin s = (s1, none) → f s1 = (s2, evs, Outcome.panic v) →
          withTx E f s = (s2, Event.call Call.Begin Ret.ok :: evs, Outcome.panic v)) := by
  refine ⟨?_, ?_, ?_⟩
  · intro s1 s2 evs r hb hf
    cases r with
    | none =>
      rw [withTx_eq_of_work_ok E f s s1 s2 evs hb hf]
      refine ⟨?_, fun _ => ⟨_, rfl⟩, fun hne => absurd rfl hne⟩
      simp [countCall_cons, countCall_append, countCall_nil, isCall]
      omega
    | some e =>
      rw [withTx_eq_of_work_error E f s s1 s2 evs e hb hf]
      refine ⟨?_, ?_, fun _ => ⟨_, rfl⟩⟩
      · simp [countCall_cons, countCall_append, countCall_nil, isCall]
        omega
      · intro hn
        cases hn
  · intro s1 e hb
    rw [withTx_eq_of_begin_error E f s s1 e hb]
    simp [countCall_cons, countCall_nil, isCall]
  · intro s1 s2 evs v hb hf
    exact withTx_eq_of_work_panic E f s s1 s2 evs v hb hf

/-- Witness for C3, amended: a failing work function with a failing
Rollback, a succeeding one with a failing Commit, a failing Begin and a
panicking work function. -/
theorem withTx_exactly_one_witness :
    (countCall Call.Commit
          (withTx scriptedEngine (insertWork scriptedEngine) ⟨0, [2, 4], 0⟩).2.1
        + countCall Call.Rollback
          (withTx scriptedEngine (insertWork scriptedEngine) ⟨0, [2, 4], 0⟩).2.1 = 1)
      ∧ (countCall Call.Commit
          (withTx scriptedEngine (insertWork scriptedEngine) ⟨0, [9], 0⟩).2.1
        + countCall Call.Rollback
          (withTx scriptedEngine (insertWork scriptedEngine) ⟨0, [9], 0⟩).2.1 = 1)
      ∧ (countCall Call.Commit
          (withTx scriptedEngine (insertWork scriptedEngine) ⟨0, [0], 0⟩).2.1
        + countCall Call.Rollback
          (withTx scriptedEngine (insertWork scriptedEngine) ⟨0, [0], 0⟩).2.1 = 0)
      ∧ withTx scriptedEngine (panicWork "boom") ⟨0, [], 0⟩
          = (⟨1, [], 0⟩, [Event.call Call.Begin Ret.ok], Outcome.panic "boom") := by
  have h1 := (withTx_exactly_one scriptedEngine (insertWork scriptedEngine)
    ⟨0, [2, 4], 0⟩).1 ⟨1, [2, 4], 0⟩ (insertWork scriptedEngine ⟨1, [2, 4], 0⟩).1
    (insertWork scriptedEngine ⟨1, [2, 4], 0⟩).2.1
    (some ⟨"failed to bind arguments: call 2 failed"⟩) (by decide) (by decide)
  have h2 := (withTx_exactly_one scriptedEngine (insertWork scriptedEngine)
    ⟨0, [9], 0⟩).1 ⟨1, [9], 0⟩ (insertWork scriptedEngine ⟨1, [9], 0⟩).1
    (insertWork scriptedEngine ⟨1, [9], 0⟩).2.1 none (by decide) (by decide)
  have h3 := (withTx_exactly_one scriptedEngine (insertWork scriptedEngine)
    ⟨0, [0], 0⟩).2.1 ⟨1, [0], 0⟩ ⟨"call 0 failed"⟩ (by decide)
  have h4 := (withTx_exactly_one scriptedEngine (panicWork "boom")
    ⟨0, [], 0⟩).2.2 ⟨1, [], 0⟩ ⟨1, [], 0⟩ [] "boom" (by decide) (by decide)
  refine ⟨?_, ?_, h3, h4⟩
  · rw [h1.1]; decide
  · rw [h2.1]; decide

/-! ## Transactions over the engine of the specification -/

theorem insertStudents1Body_inv {σ : Type} (E : Engine σ) (I : σ → Prop)
    (hB : ∀ st a s, I s → I (E.Bind st a s).1)
    (hS : ∀ st s, I s → I (E.Step st s).1)
    (hR : ∀ st s, I s → I (E.Reset st s).1)
    (hX : ∀ st a s, I s → I (E.StmtExec st a s).1)
    (st : Stmt) (s : σ) (h : I s) : I (insertStudents1Body E st s).1 := by
  unfold insertStudents1Body
  simp only []
  have h1 := hB st [Value.text "Bill", Value.integer 18] s h
  split
  · rename_i heq
    rw [heq] at h1
    exact h1
  · rename_i s1 heq
    rw [heq] at h1
    have h2 := hS st s1 h1
    split
    · rename_i heq
      rw [heq] at h2
      exact h2
    · rename_i s2 b heq
      rw [heq] at h2
      have h3 := hR st s2 h2
      split
      · rename_i heq
        rw [heq] at h3
        exact h3
      · rename_i s3 heq
        rw [heq] at h3
        have h4 := hX st [Value.text "Tom", Value.integer 18] s3 h3
        split
        · rename_i heq
          rw [heq] at h4
          exact h4
        · rename_i s4 heq
          rw [heq] at h4
          have h5 := hX st [Value.text "John", Value.integer 19] s4 h4
          split
          · rename_i heq
            rw [heq] at h5
            exact h5
          · rename_i s5 heq
            rw [heq] at h5
            have h6 := hX st [Value.text "Bob", Value.integer 18] s5 h5
            split
            · rename_i heq
              rw [heq] at h6
              exact h6
            · rename_i s6 heq
              rw [heq] at h6
              exact h6

theorem insertStudents1_inv {σ : Type} (E : Engine σ) (I : σ → Prop)
    (hP : ∀ q a s, I s → I (E.Prepare q a s).1)
    (hB : ∀ st a s, I s → I (E.Bind st a s).1)
    (hS : ∀ st s, I s → I (E.Step st s).1)
    (hR : ∀ st s, I s → I (E.Reset st s).1)
    (hX : ∀ st a s, I s → I (E.StmtExec st a s).1)
    (hC : ∀ st s, I s → I (E.StmtClose st s).1)
    (s : σ) (h : I s) : I (insertStudents1 E s).1 := by
  unfold insertStudents1
  have h1 := hP insertSQL [] s h
  split
  · rename_i heq
    rw [heq] at h1
    exact h1
  · rename_i s1 st heq
    rw [heq] at h1
    have h2 := insertStudents1Body_inv E I hB hS hR hX st s1 h1
    have h3 := hC st _ h2
    exact h3

theorem Spec.Prepare_inTx (c : List Row) (q : String) (a : List Value) (db : DB)
    (h : InTx c db) : InTx c (Spec.Prepare q a db).1 := by
  unfold Spec.Prepare
  split
  · exact h
  · split
    · split
      · exact h
      · exact h
    · exact h

theorem Spec.Bind_inTx (c : List Row) (st : Stmt) (a : List Value) (db : DB)
    (h : InTx c db) : InTx c (Spec.Bind st a db).1 := by
  unfold Spec.Bind
  split
  · exact h
  · split
    · split
      · exact h
      · exact h
    · exact h

theorem Spec.Step_inTx (c : List Row) (st : Stmt) (db : DB)
    (h : InTx c db) : InTx c (Spec.Step st db).1 := by
  unfold Spec.Step
  repeat' split
  all_goals first
    | exact h
    | (simp [InTx, DB.setStmt, DB.write, h.1, h.2])

theorem Spec.Reset_inTx (c : List Row) (st : Stmt) (db : DB)
    (h : InTx c db) : InTx c (Spec.Reset st db).1 := by
  unfold Spec.Reset
  repeat' split
  all_goals exact h

theorem Spec.StmtClose_inTx (c : List Row) (st : Stmt) (db : DB)
    (h : InTx c db) : InTx c (Spec.StmtClose st db).1 := by
  unfold Spec.StmtClose
  repeat' split
  all_goals exact h

theorem Spec.drain_inTx (c : List Row) (st : Stmt) (fuel : Nat) (db : DB)
    (h : InTx c db) : InTx c (Spec.drain st fuel db).1 := by
  induction fuel generalizing db with
  | zero => exact h
  | succ n ih =>
    unfold Spec.drain
    have h1 := Spec.Step_inTx c st db h
    split
    all_goals
      rename_i heq
      rw [heq] at h1
    · exact h1
    · exact h1
    · exact ih _ h1

theorem Spec.StmtExec_inTx (c : List Row) (st : Stmt) (a : List Value) (db : DB)
    (h : InTx c db) : InTx c (Spec.StmtExec st a db).1 := by
  unfold Spec.StmtExec
  have h1 := Spec.Bind_inTx c st a db h
  split
  · rename_i heq
    rw [heq] at h1
    exact Spec.Reset_inTx c st _ h1
  · rename_i db1 heq
    rw [heq] at h1
    have h2 := Spec.drain_inTx c st (db1.visible.length + 2) db1 h1
    split
    · rename_i heq
      rw [heq] at h2
      exact Spec.Reset_inTx c st _ h2
    · rename_i heq
      rw [heq] at h2
      exact Spec.Reset_inTx c st _ h2

theorem insertWork_inTx (c : List Row) (db : DB) (h : InTx c db) :
    InTx c (insertWork specEngine db).1 :=
  insertStudents1_inv specEngine (InTx c) (Spec.Prepare_inTx c) (Spec.Bind_inTx c)
    (Spec.Step_inTx c) (Spec.Reset_inTx c) (Spec.StmtExec_inTx c) (Spec.StmtClose_inTx c) db h

/-- C4, as stated, fails for some work functions: one that commits by itself
and then fails has its four rows committed although it failed, and one that
rolls back by itself and returns nil has none of the rows it wrote
committed. -/
theorem withTx_atomic_counterexample :
    (commitThenFail specEngine ⟨"boom"⟩ (Spec.Begin DB.withTable).1).2.2
        = Outcome.ret (some ⟨"boom"⟩)
      ∧ (withTx specEngine (commitThenFail specEngine ⟨"boom"⟩) DB.withTable).1.committed
        = studentRows
      ∧ (withTx specEngine (commitThenFail specEngine ⟨"boom"⟩) DB.withTable).1.committed
        ≠ DB.withTable.committed
      ∧ (rollbackThenOk specEngine (Spec.Begin DB.withTable).1).2.2 = Outcome.ret none
      ∧ (insertWork specEngine (Spec.Begin DB.withTable).1).1.pending = studentRows
      ∧ (withTx specEngine (rollbackThenOk specEngine) DB.withTable).1.committed = [] := by
  decide

/-- C4, amended: over the engine of the specification, which keeps committed
rows apart from the pending rows of the active transaction, and for a work
function that leaves the transaction begun by `withTx` active and does not
commit by itself. If the work function fails, the committed rows after
`withTx` are those before it, and the rows it wrote are dropped: no pending
row and no transaction is left. If it succeeds, the committed rows after
`withTx` are those before followed by the rows it wrote, each once, and no
pending row and no transaction is left. If Begin fails the work function is
not run and nothing changes. The work function of the program,
`insertStudents1`, is of this kind on every connection state. -/
theorem withTx_atomic (db : DB) (f : Work DB) :
    (db.txActive = true → (withTx specEngine f db).1 = db)
      ∧ (∀ s2 evs e, db.txActive = false →
          f (Spec.Begin db).1 = (s2, evs, Outcome.ret (some e)) →
          s2.txActive = true → s2.committed = db.committed →
          (withTx specEngine f db).1.committed = db.committed
            ∧ (withTx specEngine f db).1.pending = []
            ∧ (withTx specEngine f db).1.txActive = false
            ∧ (withTx specEngine f db).2.2 = Outcome.ret (some e))
      ∧ (∀ s2 evs, db.txActive = false →
          f (Spec.Begin db).1 = (s2, evs, Outcome.ret none) →
          s2.txActive = true → s2.committed = db.committed →
          (withTx specEngine f db).1.committed = db.committed ++ s2.pending
            ∧ (withTx specEngine f db).1.pending = []
            ∧ (withTx specEngine f db).1.txActive = false
            ∧ (withTx specEngine f db).2.2 = Outcome.ret none)
      ∧ (db.txActive = false →
          (insertWork specEngine (Spec.Begin db).1).1.txActive = true
            ∧ (insertWork specEngine (Spec.Begin db).1).1.committed = db.committed) := by
  refine ⟨?_, ?_, ?_, ?_⟩
  · intro h
    have hb : specEngine.Begin db = (db, some ⟨"TxError: transaction already active"⟩) := by
      simp [specEngine, Spec.Begin, h]
    rw [withTx_eq_of_begin_error specEngine f db db _ hb]
  · intro s2 evs e h hf htx hc
    have hb : specEngine.Begin db = ((Spec.Begin db).1, none) := by
      simp [specEngine, Spec.Begin, h]
    have hrb : specEngine.Rollback s2 = ({ s2 with pending := [], txActive := false }, none) := by
      simp [specEngine, Spec.Rollback, htx]
    rw [withTx_eq_of_work_error specEngine f db _ s2 evs e hb hf, hrb]
    simp [hc]
  · intro s2 evs h hf htx hc
    have hb : specEngine.Begin db = ((Spec.Begin db).1, none) := by
      simp [specEngine, Spec.Begin, h]
    have hcm : specEngine.Commit s2 =
        ({ s2 with committed := s2.committed ++ s2.pending, pending := [], txActive := false },
          none) := by
      simp [specEngine, Spec.Commit, htx]
    rw [withTx_eq_of_work_ok specEngine f db _ s2 evs hb hf, hcm]
    simp [hc]
  · intro h
    have h0 : InTx db.committed (Spec.Begin db).1 := by
      simp [InTx, Spec.Begin, h]
    exact insertWork_inTx db.committed _ h0

/-- Witness for C4, amended: on the database holding the empty `student`
table, `insertStudents1` writes its four rows and `withTx` commits them; the
same work followed by a failure leaves no row committed and none pending;
with a transaction already active nothing changes. -/
theorem withTx_atomic_witness :
    (withTx specEngine (insertWork specEngine) DB.withTable).1.committed = studentRows
      ∧ (withTx specEngine (insertWork specEngine) DB.withTable).2.2 = Outcome.ret none
      ∧ (thenFail (insertWork specEngine) ⟨"boom"⟩ (Spec.Begin DB.withTable).1).1.pending
          = studentRows
      ∧ (withTx specEngine (thenFail (insertWork specEngine) ⟨"boom"⟩)
          DB.withTable).1.committed = []
      ∧ (withTx specEngine (thenFail (insertWork specEngine) ⟨"boom"⟩)
          DB.withTable).1.pending = []
      ∧ (withTx specEngine (insertWork specEngine)
          { DB.withTable with txActive := true }).1 = { DB.withTable with txActive := true }
      ∧ (insertWork specEngine (Spec.Begin DB.withTable).1).1.txActive = true := by
  have h1 := (withTx_atomic DB.withTable (insertWork specEngine)).2.2.1
    (insertWork specEngine (Spec.Begin DB.withTable).1).1
    (insertWork specEngine (Spec.Begin DB.withTable).1).2.1
    (by decide) (by decide) (by decide) (by decide)
  have h2 := (withTx_atomic DB.withTable (thenFail (insertWork specEngine) ⟨"boom"⟩)).2.1
    (thenFail (insertWork specEngine) ⟨"boom"⟩ (Spec.Begin DB.withTable).1).1
    (thenFail (insertWork specEngine) ⟨"boom"⟩ (Spec.Begin DB.withTable).1).2.1
    ⟨"boom"⟩ (by decide) (by decide) (by decide) (by decide)
  have h3 := (withTx_atomic { DB.withTable with txActive := true }
    (insertWork specEngine)).1 (by decide)
  have h4 := (withTx_atomic DB.withTable (insertWork specEngine)).2.2.2 (by decide)
  refine ⟨?_, h1.2.2.2, by decide, h2.1, h2.2.1, h3, h4.1⟩
  rw [h1.1]
  decide

/-! ## The scenario of `main2` -/

/-- C5, as stated, fails: from the empty database, with every engine call
succeeding, the Step loop of `queryStudents1` reads three rows, the first of
them ("Bill", 18), not the two rows ("Tom", 18) and ("Bob", 18). -/
theorem main2_two_rows_counterexample :
    (main2 specEngine 4 DB.empty).2.2 = Outcome.ret none
      ∧ (main2 specEngine 4 DB.empty).2.1.all (fun ev => !failedCall ev) = true
      ∧ scannedRows (main2 specEngine 4 DB.empty).2.1
          = [("Bill", 18), ("Tom", 18), ("Bob", 18)]
      ∧ scannedRows (main2 specEngine 4 DB.empty).2.1 ≠ [("Tom", 18), ("Bob", 18)] := by
  decide

/-- C5, amended: from the empty database, with every engine call succeeding,
`main2` returns nil once four loop iterations are allowed, and performs
exactly the calls listed: `insertStudents1` writes ("Bill", 18) before
("Tom", 18), ("John", 19) and ("Bob", 18), and the Step loop of
`queryStudents1` yields the three rows ("Bill", 18), ("Tom", 18) and
("Bob", 18) in insertion order, after which Step returns no-row. -/
theorem main2_scenario (n : Nat) :
    (main2 specEngine (n + 4) DB.empty).2.2 = Outcome.ret none
      ∧ (main2 specEngine (n + 4) DB.empty).1.committed = studentRows
      ∧ (main2 specEngine (n + 4) DB.empty).2.1 =
          [Event.call (Call.Open "mydatabase.db") Ret.ok,
           Event.call (Call.ConnExec createSQL) Ret.ok,
           Event.call Call.Begin Ret.ok,
           Event.call (Call.Prepare insertSQL []) (Ret.stmt 0),
           Event.call (Call.Bind 0 [Value.text "Bill", Value.integer 18]) Ret.ok,
           Event.call (Call.Step 0) (Ret.hasRow false),
           Event.call (Call.Reset 0) Ret.ok,
           Event.call (Call.StmtExec 0 [Value.text "Tom", Value.integer 18]) Ret.ok,
           Event.call (Call.StmtExec 0 [Value.text "John", Value.integer 19]) Ret.ok,
           Event.call (Call.StmtExec 0 [Value.text "Bob", Value.integer 18]) Ret.ok,
           Event.call (Call.StmtClose 0) Ret.ok,
           Event.call Call.Commit Ret.ok,
           Event.call (Call.Prepare selectSQL [Value.integer 18]) (Ret.stmt 1),
           Event.call (Call.Step 1) (Ret.hasRow true),
           Event.call (Call.Scan 1) (Ret.row "Bill" 18),
           Event.print "name: Bill age: 18",
           Event.call (Call.Step 1) (Ret.hasRow true),
           Event.call (Call.Scan 1) (Ret.row "Tom" 18),
           Event.print "name: Tom age: 18",
           Event.call (Call.Step 1) (Ret.hasRow true),
           Event.call (Call.Scan 1) (Ret.row "Bob" 18),
           Event.print "name: Bob age: 18",
           Event.call (Call.Step 1) (Ret.hasRow false),
           Event.call (Call.StmtClose 1) Ret.ok,
           Event.call Call.ConnClose Ret.ok]
      ∧ scannedRows (main2 specEngine (n + 4) DB.empty).2.1
          = [("Bill", 18), ("Tom", 18), ("Bob", 18)]
      ∧ stepResults 1 (main2 specEngine (n + 4) DB.empty).2.1
          = [Ret.hasRow true, Ret.hasRow true, Ret.hasRow true, Ret.hasRow false] := by
  have h : main2 specEngine (n + 4) DB.empty = main2 specEngine 4 DB.empty := rfl
  rw [h]
  decide

/-! ## Error propagation -/

theorem uncaught_of_isCleanup {ev : Event} (h : isCleanup ev = true) : uncaught ev = false := by
  simp [uncaught, h]

theorem Propagates.cons_clean {ev : Event} {evs : List Event} {o : Outcome}
    (hev : uncaught ev = false) (h : Propagates evs o) : Propagates (ev :: evs) o := by
  refine ⟨?_, ?_⟩
  · intro x hx hu
    rcases List.mem_cons.1 hx with rfl | hx
    · rw [hev] at hu; cases hu
    · exact h.1 x hx hu
  · refine List.pairwise_cons.2 ⟨?_, h.2⟩
    intro later _ hu
    rw [hev] at hu; cases hu

theorem Propagates.append_cleanup {evs ys : List Event} {o : Outcome}
    (h : Propagates evs o) (hys : ∀ x ∈ ys, isCleanup x = true) :
    Propagates (evs ++ ys) o := by
  refine ⟨?_, ?_⟩
  · intro x hx hu
    rcases List.mem_append.1 hx with hx | hx
    · exact h.1 x hx hu
    · rw [uncaught_of_isCleanup (hys x hx)] at hu; cases hu
  · refine List.pairwise_append.2 ⟨h.2, ?_, ?_⟩
    · refine List.Pairwise.imp_of_mem ?_ (List.pairwise_of_forall (R := fun _ _ => True)
        (l := ys) (fun _ _ => trivial))
      intro a b ha _ _ hu
      rw [uncaught_of_isCleanup (hys a ha)] at hu; cases hu
    · intro a _ b hb _
      exact hys b hb

theorem Propagates.mono {evs : List Event} {o o1 : Outcome}
    (h : Propagates evs o) (ho : o.isError = true → o1.isError = true) :
    Propagates evs o1 :=
  ⟨fun ev hev hu => ho (h.1 ev hev hu), h.2⟩

theorem Propagates.clean {evs : List Event} {o : Outcome}
    (h : Propagates evs o) (ho : o.isError = false) : ∀ ev ∈ evs, uncaught ev = false := by
  intro ev hev
  cases hu : uncaught ev with
  | false => rfl
  | true =>
    have := h.1 ev hev hu
    rw [ho] at this; cases this

theorem Propagates.clean_append {xs ys : List Event} {o : Outcome}
    (hxs : ∀ ev ∈ xs, uncaught ev = false) (h : Propagates ys o) :
    Propagates (xs ++ ys) o := by
  induction xs with
  | nil => simpa using h
  | cons x xs ih =>
    have hx : uncaught x = false := hxs x (List.mem_cons_self _ _)
    exact Propagates.cons_clean hx (ih (fun ev hev => hxs ev (List.mem_cons_of_mem _ hev)))

theorem insertStudents1Body_propagates {σ : Type} (E : Engine σ) (st : Stmt) (s : σ) :
    Propagates (insertStudents1Body E st s).2.1
      (Outcome.ret (insertStudents1Body E st s).2.2) := by
  unfold insertStudents1Body
  simp only []
  repeat' split
  all_goals simp [Propagates, uncaught, failedCall, isCleanup, Outcome.isError]

theorem insertStudents1_propagates {σ : Type} (E : Engine σ) (s : σ) :
    Propagates (insertStudents1 E s).2.1 (Outcome.ret (insertStudents1 E s).2.2) := by
  unfold insertStudents1
  split
  · simp [Propagates, uncaught, failedCall, isCleanup, Outcome.isError]
  · rename_i s1 st _
    have hb := insertStudents1Body_propagates E st s1
    refine Propagates.cons_clean (by simp [uncaught, failedCall]) ?_
    exact Propagates.append_cleanup hb (by simp [isCleanup])

theorem insertWork_propagates {σ : Type} (E : Engine σ) (s : σ) :
    Propagates (insertWork E s).2.1 (insertWork E s).2.2 :=
  insertStudents1_propagates E s

theorem withTx_propagates {σ : Type} (E : Engine σ) (f : Work σ) (s : σ)
    (hf : Propagates (f (E.Begin s).1).2.1 (f (E.Begin s).1).2.2) :
    Propagates (withTx E f s).2.1 (withTx E f s).2.2 := by
  unfold withTx
  split
  · simp [Propagates, uncaught, failedCall, isCleanup, Outcome.isError]
  · rename_i s1 hb
    rw [hb] at hf
    simp only [] at hf
    split
    · rename_i s2 evs err hfs
      rw [hfs] at hf
      refine Propagates.cons_clean (by simp [uncaught, failedCall]) ?_
      exact Propagates.append_cleanup hf (by simp [isCleanup])
    · rename_i s2 evs hfs
      rw [hfs] at hf
      have hclean := Propagates.clean hf rfl
      split
      · refine Propagates.cons_clean (by simp [uncaught, failedCall]) ?_
        refine Propagates.clean_append hclean ?_
        simp [Propagates, uncaught, failedCall, isCleanup, Outcome.isError]
      · refine Propagates.cons_clean (by simp [uncaught, failedCall]) ?_
        refine Propagates.clean_append hclean ?_
        simp [Propagates, uncaught, failedCall, isCleanup, Outcome.isError]
    · rename_i s2 evs v hfs
      rw [hfs] at hf
      exact Propagates.cons_clean (by simp [uncaught, failedCall]) hf
    · rename_i s2 evs hfs
      rw [hfs] at hf
      exact Propagates.cons_clean (by simp [uncaught, failedCall]) hf

theorem queryLoop_propagates {σ : Type} (E : Engine σ) (st : Stmt) (fuel : Nat) (s : σ) :
    Propagates (queryLoop E st fuel s).2.1 (queryLoop E st fuel s).2.2 := by
  induction fuel generalizing s with
  | zero => simp [queryLoop, Propagates]
  | succ n ih =>
    unfold queryLoop
    split
    · simp [Propagates, uncaught, failedCall, isCleanup, Outcome.isError]
    · simp [Propagates, uncaught, failedCall, isCleanup, Outcome.isError]
    · split
      · simp [Propagates, uncaught, failedCall, isCleanup, Outcome.isError]
      · rename_i s2 name age _
        have h := ih s2
        refine Propagates.cons_clean (by simp [uncaught, failedCall]) ?_
        refine Propagates.cons_clean (by simp [uncaught, failedCall]) ?_
        exact Propagates.cons_clean (by simp [uncaught, failedCall]) h

theorem queryStudents1_propagates {σ : Type} (E : Engine σ) (fuel : Nat) (s : σ) :
    Propagates (queryStudents1 E fuel s).2.1 (queryStudents1 E fuel s).2.2 := by
  unfold queryStudents1
  split
  · simp [Propagates, uncaught, failedCall, isCleanup, Outcome.isError]
  · rename_i s1 st _
    have h := queryLoop_propagates E st fuel s1
    split
    · rename_i s2 evs hq
      rw [hq] at h
      exact Propagates.cons_clean (by simp [uncaught, failedCall]) h
    · rename_i s2 evs o _ hq
      rw [hq] at h
      refine Propagates.cons_clean (by simp [uncaught, failedCall]) ?_
      exact Propagates.append_cleanup h (by simp [isCleanup])

theorem main2Body_propagates {σ : Type} (E : Engine σ) (fuel : Nat) (s : σ) :
    Propagates (main2Body E fuel s).2.1 (main2Body E fuel s).2.2 := by
  unfold main2Body
  split
  · simp [Propagates, uncaught, failedCall, isCleanup, Outcome.isError]
  · rename_i s1 _
    have hw := withTx_propagates E (insertWork E) s1 (insertWork_propagates E _)
    split
    · rename_i s2 evs err hws
      rw [hws] at hw
      exact Propagates.cons_clean (by simp [uncaught, failedCall])
        (Propagates.mono hw (fun _ => rfl))
    · rename_i s2 evs hws
      rw [hws] at hw
      have hclean := Propagates.clean hw rfl
      have hq := queryStudents1_propagates E fuel s2
      split
      · rename_i s3 evs2 err hqs
        rw [hqs] at hq
        refine Propagates.cons_clean (by simp [uncaught, failedCall]) ?_
        exact Propagates.clean_append hclean (Propagates.mono hq (fun _ => rfl))
      · rename_i s3 evs2 o _ hqs
        rw [hqs] at hq
        refine Propagates.cons_clean (by simp [uncaught, failedCall]) ?_
        exact Propagates.clean_append hclean hq
    · rename_i s2 evs o _ _ hws
      rw [hws] at hw
      exact Propagates.cons_clean (by simp [uncaught, failedCall]) hw

theorem main2_propagates {σ : Type} (E : Engine σ) (fuel : Nat) (s : σ) :
    Propagates (main2 E fuel s).2.1 (main2 E fuel s).2.2 := by
  unfold main2
  split
  · simp [Propagates, uncaught, failedCall, isCleanup, Outcome.isError]
  · rename_i s1 _
    have hb := main2Body_propagates E fuel s1
    split
    · rename_i s2 evs hbs
      rw [hbs] at hb
      exact Propagates.cons_clean (by simp [uncaught, failedCall]) hb
    · rename_i s2 evs o _ hbs
      rw [hbs] at hb
      refine Propagates.cons_clean (by simp [uncaught, failedCall]) ?_
      exact Propagates.append_cleanup hb (by simp [isCleanup])

/-! ## Statements and the connection are closed -/

theorem openAfter_append (live : List Stmt) (xs ys : List Event) :
    openAfter live (xs ++ ys) = openAfter (openAfter live xs) ys := by
  induction xs generalizing live with
  | nil => rfl
  | cons x xs ih =>
    cases x with
    | print line => simpa [openAfter] using ih live
    | call c r =>
      cases c <;> cases r <;> simp [openAfter, ih]

theorem openAfter_plain (live : List Stmt) (evs : List Event)
    (h : ∀ ev ∈ evs, isPlain ev = true) : openAfter live evs = live := by
  induction evs generalizing live with
  | nil => rfl
  | cons x xs ih =>
    have hx := h x (List.mem_cons_self _ _)
    have hxs := fun ev hev => h ev (List.mem_cons_of_mem _ hev)
    cases x with
    | print line => simpa [openAfter] using ih live hxs
    | call c r =>
      cases c <;> cases r <;> simp [isPlain] at hx
      all_goals simp [openAfter, ih _ hxs]

theorem countP_eq_zero_of_plain (p : Event → Bool) (evs : List Event)
    (hp : ∀ ev, p ev = true → isPlain ev = false)
    (h : ∀ ev ∈ evs, isPlain ev = true) : evs.countP p = 0 := by
  rw [List.countP_eq_zero]
  intro ev hev hpe
  have := hp ev hpe
  rw [h ev hev] at this
  cases this

theorem isPlain_of_isStmtClose (ev : Event) (h : isStmtClose ev = true) : isPlain ev = false := by
  cases ev with
  | print line => simp [isStmtClose] at h
  | call c r =>
    cases c <;> simp [isStmtClose] at h
    simp [isPlain]

theorem isPlain_of_isPrepare (ev : Event) (h : isPrepare ev = true) : isPlain ev = false := by
  cases ev with
  | print line => simp [isPrepare] at h
  | call c r =>
    cases c <;> simp [isPrepare] at h
    simp [isPlain]

theorem isPlain_of_connClose (ev : Event) (h : isCall Call.ConnClose ev = true) :
    isPlain ev = false := by
  cases ev with
  | print line => simp [isCall] at h
  | call c r =>
    cases c <;> simp [isCall] at h
    simp [isPlain]

theorem Balanced.of_plain {evs : List Event} (h : ∀ ev ∈ evs, isPlain ev = true) :
    Balanced evs :=
  ⟨fun live => openAfter_plain live evs h,
    countP_eq_zero_of_plain _ evs isPlain_of_connClose h⟩

theorem Balanced.append {xs ys : List Event} (hx : Balanced xs) (hy : Balanced ys) :
    Balanced (xs ++ ys) :=
  ⟨fun live => by rw [openAfter_append, hx.1, hy.1],
    by rw [countCall_append, hx.2, hy.2]⟩

theorem Balanced.cons_plain {ev : Event} {evs : List Event} (hev : isPlain ev = true)
    (h : Balanced evs) : Balanced (ev :: evs) :=
  @Balanced.append [ev] evs (Balanced.of_plain (by simpa using hev)) h

theorem insertStudents1Body_plain {σ : Type} (E : Engine σ) (st : Stmt) (s : σ) :
    ∀ ev ∈ (insertStudents1Body E st s).2.1, isPlain ev = true := by
  unfold insertStudents1Body
  simp only []
  repeat' split
  all_goals simp [isPlain]

theorem queryLoop_plain {σ : Type} (E : Engine σ) (st : Stmt) (fuel : Nat) (s : σ) :
    ∀ ev ∈ (queryLoop E st fuel s).2.1, isPlain ev = true := by
  induction fuel generalizing s with
  | zero => simp [queryLoop]
  | succ n ih =>
    unfold queryLoop
    split
    · simp [isPlain]
    · simp [isPlain]
    · split
      · simp [isPlain]
      · rename_i s2 name age _
        have h := ih s2
        intro ev hev
        simp only [List.mem_cons] at hev
        rcases hev with rfl | rfl | rfl | hev
        · rfl
        · rfl
        · rfl
        · exact h ev hev

/-- The shape of the events of a function that prepares a statement, works
on it and closes it. -/
theorem balanced_prepare_close (sql : String) (args : List Value) (st : Stmt)
    (body : List Event) (c : Ret) (h : ∀ ev ∈ body, isPlain ev = true) :
    Balanced (Event.call (Call.Prepare sql args) (Ret.stmt st) ::
      (body ++ [Event.call (Call.StmtClose st) c])) := by
  refine ⟨?_, ?_⟩
  · intro live
    simp [openAfter, openAfter_append, openAfter_plain _ body h]
  · rw [countCall_cons, countCall_append, countP_eq_zero_of_plain _ body isPlain_of_connClose h |>
      (show countCall Call.ConnClose body = 0 from ·)]
    simp [countCall_cons, countCall_nil, isCall]

theorem balanced_prepare_error (sql : String) (args : List Value) (e : Error) :
    Balanced [Event.call (Call.Prepare sql args) (Ret.err e)] :=
  ⟨fun live => by simp [openAfter], by simp [countCall_cons, countCall_nil, isCall]⟩

theorem insertStudents1_balanced {σ : Type} (E : Engine σ) (s : σ) :
    Balanced (insertStudents1 E s).2.1 := by
  unfold insertStudents1
  split
  · exact balanced_prepare_error _ _ _
  · rename_i s1 st _
    exact balanced_prepare_close _ _ st _ _ (insertStudents1Body_plain E st s1)

theorem withTx_balanced {σ : Type} (E : Engine σ) (f : Work σ) (s : σ)
    (hf : Balanced (f (E.Begin s).1).2.1) : Balanced (withTx E f s).2.1 := by
  unfold withTx
  split
  · exact Balanced.of_plain (by simp [isPlain])
  · rename_i s1 hb
    rw [hb] at hf
    simp only [] at hf
    split
    all_goals
      rename_i hfs
      rw [hfs] at hf
    · exact Balanced.cons_plain rfl (Balanced.append hf (Balanced.of_plain (by simp [isPlain])))
    · split
      · exact Balanced.cons_plain rfl
          (Balanced.append hf (Balanced.of_plain (by simp [isPlain])))
      · exact Balanced.cons_plain rfl
          (Balanced.append hf (Balanced.of_plain (by simp [isPlain])))
    · exact Balanced.cons_plain rfl hf
    · exact Balanced.cons_plain rfl hf

theorem queryStudents1_balanced {σ : Type} (E : Engine σ) (fuel : Nat) (s : σ)
    (h : (queryStudents1 E fuel s).2.2 ≠ Outcome.unfinished) :
    Balanced (queryStudents1 E fuel s).2.1 := by
  unfold queryStudents1 at h ⊢
  split
  · exact balanced_prepare_error _ _ _
  · rename_i s1 st hp
    rw [hp] at h
    simp only [] at h
    have hl := queryLoop_plain E st fuel s1
    split
    · rename_i s2 evs hq
      rw [hq] at h
      simp at h
    · rename_i s2 evs o _ hq
      rw [hq] at hl
      exact balanced_prepare_close _ _ st _ _ hl

theorem main2Body_balanced {σ : Type} (E : Engine σ) (fuel : Nat) (s : σ)
    (h : (main2Body E fuel s).2.2 ≠ Outcome.unfinished) :
    Balanced (main2Body E fuel s).2.1 := by
  unfold main2Body at h ⊢
  split
  · exact Balanced.of_plain (by simp [isPlain])
  · rename_i s1 hx
    rw [hx] at h
    simp only [] at h
    have hw := withTx_balanced E (insertWork E) s1 (insertStudents1_balanced E _)
    split
    · rename_i s2 evs err hws
      rw [hws] at hw
      exact Balanced.cons_plain rfl hw
    · rename_i s2 evs hws
      rw [hws] at hw h
      simp only [] at h
      have hq := queryStudents1_balanced E fuel s2
      split
      · rename_i s3 evs2 err hqs
        rw [hqs] at hq
        exact Balanced.cons_plain rfl (Balanced.append hw (hq (by simp)))
      · rename_i s3 evs2 o hne hqs
        rw [hqs] at hq
        refine Balanced.cons_plain rfl (Balanced.append hw (hq ?_))
        intro ho
        simp only [] at ho
        subst ho
        simp [hqs] at h
    · rename_i s2 evs o _ _ hws
      rw [hws] at hw
      exact Balanced.cons_plain rfl hw

/-! ## Termination of the Step loop -/

theorem scannedRows_cons (ev : Event) (evs : List Event) :
    scannedRows (ev :: evs) = (scanned ev).toList ++ scannedRows evs := by
  cases h : scanned ev <;> simp [scannedRows, List.filterMap_cons, h]

theorem scannedRows_append (xs ys : List Event) :
    scannedRows (xs ++ ys) = scannedRows xs ++ scannedRows ys := by
  simp [scannedRows, List.filterMap_append]

/-- The loop is unfinished after `fuel` iterations only if every one of them
read a row. -/
theorem queryLoop_unfinished {σ : Type} (E : Engine σ) (st : Stmt) (fuel : Nat) (s : σ)
    (h : (queryLoop E st fuel s).2.2 = Outcome.unfinished) :
    (scannedRows (queryLoop E st fuel s).2.1).length = fuel := by
  induction fuel generalizing s with
  | zero => simp [queryLoop, scannedRows]
  | succ n ih =>
    unfold queryLoop at h ⊢
    split
    · rename_i hs
      simp [hs] at h
    · rename_i hs
      simp [hs] at h
    · rename_i s1 hs
      rw [hs] at h
      simp only [] at h
      split
      · rename_i hc
        simp [hc] at h
      · rename_i s2 name age hc
        rw [hc] at h
        simp only [] at h
        have := ih s2 h
        simp [scannedRows_cons, scanned, this]

theorem queryStudents1_unfinished {σ : Type} (E : Engine σ) (fuel : Nat) (s : σ)
    (h : (queryStudents1 E fuel s).2.2 = Outcome.unfinished) :
    (scannedRows (queryStudents1 E fuel s).2.1).length = fuel := by
  unfold queryStudents1 at h ⊢
  split
  · rename_i hp
    simp [hp] at h
  · rename_i s1 st hp
    rw [hp] at h
    simp only [] at h
    have hl := queryLoop_unfinished E st fuel s1
    split
    · rename_i s2 evs hq
      rw [hq] at hl
      simp [scannedRows_cons, scanned, hl]
    · rename_i s2 evs o hne hq
      rw [hq] at h
      simp only [] at h
      exact absurd h hne

theorem withTx_insertWork_returns {σ : Type} (E : Engine σ) (s : σ) :
    ∃ r, (withTx E (insertWork E) s).2.2 = Outcome.ret r := by
  unfold withTx
  split
  · exact ⟨_, rfl⟩
  · split
    · exact ⟨_, rfl⟩
    · split
      · exact ⟨_, rfl⟩
      · exact ⟨_, rfl⟩
    · rename_i hfs
      simp [insertWork] at hfs
    · rename_i hfs
      simp [insertWork] at hfs

theorem main2Body_unfinished {σ : Type} (E : Engine σ) (fuel : Nat) (s : σ)
    (h : (main2Body E fuel s).2.2 = Outcome.unfinished) :
    fuel ≤ (scannedRows (main2Body E fuel s).2.1).length := by
  unfold main2Body at h ⊢
  split
  · rename_i hx
    simp [hx] at h
  · rename_i s1 hx
    rw [hx] at h
    simp only [] at h
    obtain ⟨r, hr⟩ := withTx_insertWork_returns E s1
    split
    · rename_i hws
      simp [hws] at h
    · rename_i s2 evs hws
      rw [hws] at h
      simp only [] at h
      have hq := queryStudents1_unfinished E fuel s2
      split
      · rename_i hqs
        simp [hqs] at h
      · rename_i s3 evs2 o _ hqs
        rw [hqs] at h hq
        simp only [] at h hq
        have := hq h
        simp only [scannedRows_cons, scannedRows_append, List.length_append, this]
        omega
    · rename_i s2 evs o _ _ hws
      rw [hws] at h hr
      simp only [] at h hr
      rw [h] at hr
      cases hr

/-- C7: in `insertStudents1` and in `queryStudents1`, when Prepare succeeds
the events of the call are the Prepare, then calls that are neither Prepare
nor Close, then one Close of the prepared statement as the last event, on
every return path; when Prepare fails, no Close is called. `queryStudents1`
returns unless each of the `fuel` iterations read a row. -/
theorem prepare_close_matched {σ : Type} (E : Engine σ) (fuel : Nat) (s : σ) :
    (∀ s1 st, E.Prepare insertSQL [] s = (s1, Except.ok st) →
        (insertStudents1 E s).2.1.countP isStmtClose = 1
        ∧ ∃ body c, (insertStudents1 E s).2.1
            = Event.call (Call.Prepare insertSQL []) (Ret.stmt st) ::
                (body ++ [Event.call (Call.StmtClose st) c])
          ∧ body.countP isStmtClose = 0 ∧ body.countP isPrepare = 0)
      ∧ (∀ s1 e, E.Prepare insertSQL [] s = (s1, Except.error e) →
          (insertStudents1 E s).2.1.countP isStmtClose = 0)
      ∧ (∀ s1 st, E.Prepare selectSQL [Value.integer 18] s = (s1, Except.ok st) →
          (queryStudents1 E fuel s).2.2 ≠ Outcome.unfinished →
          (queryStudents1 E fuel s).2.1.countP isStmtClose = 1
          ∧ ∃ body c, (queryStudents1 E fuel s).2.1
              = Event.call (Call.Prepare selectSQL [Value.integer 18]) (Ret.stmt st) ::
                  (body ++ [Event.call (Call.StmtClose st) c])
            ∧ body.countP isStmtClose = 0 ∧ body.countP isPrepare = 0)
      ∧ (∀ s1 e, E.Prepare selectSQL [Value.integer 18] s = (s1, Except.error e) →
          (queryStudents1 E fuel s).2.1.countP isStmtClose = 0)
      ∧ ((queryStudents1 E fuel s).2.2 = Outcome.unfinished →
          (scannedRows (queryStudents1 E fuel s).2.1).length = fuel) := by
  refine ⟨?_, ?_, ?_, ?_, queryStudents1_unfinished E fuel s⟩
  · intro s1 st hp
    have hb := insertStudents1Body_plain E st s1
    have h0 := countP_eq_zero_of_plain isStmtClose _ isPlain_of_isStmtClose hb
    have h1 := countP_eq_zero_of_plain isPrepare _ isPlain_of_isPrepare hb
    have he : (insertStudents1 E s).2.1
        = Event.call (Call.Prepare insertSQL []) (Ret.stmt st) ::
            ((insertStudents1Body E st s1).2.1
              ++ [Event.call (Call.StmtClose st)
                    (Ret.ofErr (E.StmtClose st (insertStudents1Body E st s1).1).2)]) := by
      simp only [insertStudents1, hp]
    refine ⟨?_, _, _, he, h0, h1⟩
    rw [he]
    simp [List.countP_cons, List.countP_append, h0, isStmtClose]
  · intro s1 e hp
    simp [insertStudents1, hp, isStmtClose]
  · intro s1 st hp hne
    have hb := queryLoop_plain E st fuel s1
    have h0 := countP_eq_zero_of_plain isStmtClose _ isPlain_of_isStmtClose hb
    have h1 := countP_eq_zero_of_plain isPrepare _ isPlain_of_isPrepare hb
    have he : (queryStudents1 E fuel s).2.1
        = Event.call (Call.Prepare selectSQL [Value.integer 18]) (Ret.stmt st) ::
            ((queryLoop E st fuel s1).2.1
              ++ [Event.call (Call.StmtClose st)
                    (Ret.ofErr (E.StmtClose st (queryLoop E st fuel s1).1).2)]) := by
      unfold queryStudents1 at hne ⊢
      rw [hp] at hne ⊢
      simp only [] at hne ⊢
      split
      · rename_i hq
        simp [hq] at hne
      · rename_i hq
        simp [hq]
    refine ⟨?_, _, _, he, h0, h1⟩
    rw [he]
    simp [List.countP_cons, List.countP_append, h0, isStmtClose]
  · intro s1 e hp
    simp [queryStudents1, hp, isStmtClose]

/-- Witness for C7: Bind fails in `insertStudents1` (call 1), Scan fails in
`queryStudents1` (call 2), and Prepare fails (call 0). -/
theorem prepare_close_matched_witness :
    scriptedEngine.Prepare insertSQL [] ⟨0, [1], 0⟩ = (⟨1, [1], 0⟩, Except.ok 0)
      ∧ scriptedEngine.Prepare insertSQL [] ⟨0, [0], 0⟩
          = (⟨1, [0], 0⟩, Except.error ⟨"call 0 failed"⟩)
      ∧ (insertStudents1 scriptedEngine ⟨0, [1], 0⟩).2.1.countP isStmtClose = 1
      ∧ (queryStudents1 scriptedEngine 5 ⟨0, [2], 3⟩).2.1.countP isStmtClose = 1
      ∧ (queryStudents1 scriptedEngine 5 ⟨0, [2], 3⟩).2.2
          = Outcome.ret (some ⟨"scan failed while querying students: call 2 failed"⟩)
      ∧ (insertStudents1 scriptedEngine ⟨0, [0], 0⟩).2.1.countP isStmtClose = 0
      ∧ (queryStudents1 scriptedEngine 5 ⟨0, [0], 3⟩).2.1.countP isStmtClose = 0 := by
  have h1 := (prepare_close_matched scriptedEngine 5 ⟨0, [1], 0⟩).1
    ⟨1, [1], 0⟩ 0 rfl
  have h2 := (prepare_close_matched scriptedEngine 5 ⟨0, [2], 3⟩).2.2.1
    ⟨1, [2], 3⟩ 0 rfl (by decide)
  have h3 := (prepare_close_matched scriptedEngine 5 ⟨0, [0], 0⟩).2.1
    ⟨1, [0], 0⟩ ⟨"call 0 failed"⟩ rfl
  have h4 := (prepare_close_matched scriptedEngine 5 ⟨0, [0], 3⟩).2.2.2.1
    ⟨1, [0], 3⟩ ⟨"call 0 failed"⟩ rfl
  exact ⟨rfl, rfl, h1.1, h2.1, by decide, h3, h4⟩

/-- C8: when Open succeeds and `main2` returns, the last event of `main2` is
the only Close of the connection, and at that moment every statement opened
by a successful Prepare has been closed, whichever stage failed or
succeeded. `main2` returns unless each of the `fuel` loop iterations read a
row. -/
theorem main2_closes_connection {σ : Type} (E : Engine σ) (fuel : Nat) (s s1 : σ)
    (hopen : E.Open "mydatabase.db" s = (s1, none)) :
    ((main2 E fuel s).2.2 ≠ Outcome.unfinished →
        countCall Call.ConnClose (main2 E fuel s).2.1 = 1
        ∧ ∃ pre c, (main2 E fuel s).2.1 = pre ++ [Event.call Call.ConnClose c]
          ∧ countCall Call.ConnClose pre = 0 ∧ openAfter [] pre = [])
      ∧ ((main2 E fuel s).2.2 = Outcome.unfinished →
          fuel ≤ (scannedRows (main2 E fuel s).2.1).length) := by
  refine ⟨?_, ?_⟩
  · intro hne
    have he : (main2 E fuel s).2.1
          = (Event.call (Call.Open "mydatabase.db") Ret.ok :: (main2Body E fuel s1).2.1)
              ++ [Event.call Call.ConnClose
                    (Ret.ofErr (E.ConnClose (main2Body E fuel s1).1).2)]
        ∧ (main2Body E fuel s1).2.2 ≠ Outcome.unfinished := by
      unfold main2 at hne ⊢
      rw [hopen] at hne ⊢
      simp only [] at hne ⊢
      split
      · rename_i hb
        simp [hb] at hne
      · rename_i s2 evs o hno hb
        refine ⟨by simp [hb], ?_⟩
        rw [hb]
        exact hno
    have hbal : Balanced (Event.call (Call.Open "mydatabase.db") Ret.ok ::
        (main2Body E fuel s1).2.1) :=
      Balanced.cons_plain rfl (main2Body_balanced E fuel s1 he.2)
    refine ⟨?_, _, _, he.1, hbal.2, hbal.1 []⟩
    rw [he.1, countCall_append, hbal.2]
    simp [countCall_cons, countCall_nil, isCall]
  · intro hu
    unfold main2 at hu ⊢
    rw [hopen] at hu ⊢
    simp only [] at hu ⊢
    have hb := main2Body_unfinished E fuel s1
    split
    · rename_i s2 evs hbs
      rw [hbs] at hb
      have := hb rfl
      simp only [] at this
      simp only [scannedRows_cons, List.length_append]
      omega
    · rename_i s2 evs o hno hbs
      rw [hbs] at hu
      simp only [] at hu
      exact absurd hu hno

/-- Witness for C8: Open succeeds, the second insert fails (call 8), and the
connection is closed once, last, with no statement left open. -/
theorem main2_closes_connection_witness :
    scriptedEngine.Open "mydatabase.db" ⟨0, [8], 2⟩ = (⟨1, [8], 2⟩, none)
      ∧ (main2 scriptedEngine 10 ⟨0, [8], 2⟩).2.2
          = Outcome.ret (some
              ⟨"failed to insert students: failed to insert student: call 8 failed"⟩)
      ∧ countCall Call.ConnClose (main2 scriptedEngine 10 ⟨0, [8], 2⟩).2.1 = 1
      ∧ (main2 scriptedEngine 10 ⟨0, [8], 2⟩).2.1.getLast?
          = some (Event.call Call.ConnClose Ret.ok)
      ∧ openAfter [] (main2 scriptedEngine 10 ⟨0, [8], 2⟩).2.1.dropLast = [] := by
  have h := (main2_closes_connection scriptedEngine 10 ⟨0, [8], 2⟩ ⟨1, [8], 2⟩
    (by decide)).1 (by decide)
  exact ⟨by decide, by decide, h.1, by decide, by decide⟩

/-! ## The Step loop: Scan only on a row -/

theorem ScanAfterRowStep.of_not_scan (prev : Event) {ev : Event} (h : isScan ev = false) :
    ScanAfterRowStep prev ev := by
  intro st hs
  cases ev with
  | print line => simp [isCall] at hs
  | call c r =>
    cases c <;> simp [isCall] at hs
    simp [isScan] at h

theorem StopIsFinal.of_not_stop {ev : Event} (later : Event) (h : isStopStep ev = false) :
    StopIsFinal ev later := by
  intro hs
  rw [h] at hs
  cases hs

theorem queryLoop_scan_chain {σ : Type} (E : Engine σ) (st : Stmt) (fuel : Nat) (s : σ) :
    (∀ ev ∈ ((queryLoop E st fuel s).2.1.filter isEngineCall).head?, isScan ev = false)
      ∧ ((queryLoop E st fuel s).2.1.filter isEngineCall).Chain' ScanAfterRowStep := by
  induction fuel generalizing s with
  | zero => simp [queryLoop]
  | succ n ih =>
    unfold queryLoop
    split
    · simp [isEngineCall, isScan]
    · simp [isEngineCall, isScan]
    · split
      · refine ⟨by simp [isEngineCall, isScan], ?_⟩
        simp only [List.filter, isEngineCall]
        refine List.Chain'.cons ?_ (List.chain'_singleton _)
        intro h hs
        simp [isCall] at hs
        rw [hs]
      · rename_i s2 name age _
        obtain ⟨hh, hc⟩ := ih s2
        refine ⟨by simp [isEngineCall, isScan], ?_⟩
        simp only [List.filter, isEngineCall]
        refine List.Chain'.cons ?_ (List.Chain'.cons' hc ?_)
        · intro h hs
          simp [isCall] at hs
          rw [hs]
        · intro y hy
          exact ScanAfterRowStep.of_not_scan _ (hh y hy)

theorem queryLoop_stop_final {σ : Type} (E : Engine σ) (st : Stmt) (fuel : Nat) (s : σ) :
    (queryLoop E st fuel s).2.1.Pairwise StopIsFinal := by
  induction fuel generalizing s with
  | zero => simp [queryLoop]
  | succ n ih =>
    unfold queryLoop
    split
    · simp
    · simp
    · split
      · simp [StopIsFinal, isStopStep]
      · rename_i s2 name age _
        have h := ih s2
        refine List.pairwise_cons.2 ⟨fun _ _ => StopIsFinal.of_not_stop _ rfl, ?_⟩
        refine List.pairwise_cons.2 ⟨fun _ _ => StopIsFinal.of_not_stop _ rfl, ?_⟩
        exact List.pairwise_cons.2 ⟨fun _ _ => StopIsFinal.of_not_stop _ rfl, h⟩

/-- C9: in `queryStudents1`, whatever the Step calls return and however far
the loop has run: the first engine call is not a Scan; every Scan directly
follows, among the engine calls, the Step on the same statement that
returned `hasRow = true`; and after a Step that returned `hasRow = false` or
an error no Step and no Scan is called. -/
theorem scan_only_on_row {σ : Type} (E : Engine σ) (fuel : Nat) (s : σ) :
    (∀ ev ∈ ((queryStudents1 E fuel s).2.1.filter isEngineCall).head?, isScan ev = false)
      ∧ ((queryStudents1 E fuel s).2.1.filter isEngineCall).Chain' ScanAfterRowStep
      ∧ (queryStudents1 E fuel s).2.1.Pairwise StopIsFinal := by
  unfold queryStudents1
  split
  · simp [isEngineCall, isScan]
  · rename_i s1 st _
    obtain ⟨hh, hc⟩ := queryLoop_scan_chain E st fuel s1
    have hp := queryLoop_stop_final E st fuel s1
    split
    · rename_i s2 evs hq
      rw [hq] at hh hc hp
      refine ⟨by simp [isEngineCall, isScan], ?_, ?_⟩
      · simp only [List.filter, isEngineCall]
        exact List.Chain'.cons' hc (fun y hy => ScanAfterRowStep.of_not_scan _ (hh y hy))
      · exact List.pairwise_cons.2 ⟨fun _ _ => StopIsFinal.of_not_stop _ rfl, hp⟩
    · rename_i s2 evs o _ hq
      rw [hq] at hh hc hp
      refine ⟨by simp [isEngineCall, isScan], ?_, ?_⟩
      · simp only [List.filter, isEngineCall, List.filter_append]
        refine List.Chain'.cons' (List.Chain'.append hc (List.chain'_singleton _) ?_) ?_
        · intro x _ y hy
          simp at hy
          subst hy
          exact ScanAfterRowStep.of_not_scan _ rfl
        · intro y hy
          refine ScanAfterRowStep.of_not_scan _ ?_
          cases hf : evs.filter isEngineCall with
          | nil =>
            rw [hf] at hy
            simp at hy
            subst hy
            rfl
          | cons a l =>
            rw [hf] at hy hh
            simp at hy
            subst hy
            exact hh _ rfl
      · refine List.pairwise_cons.2 ⟨fun _ _ => StopIsFinal.of_not_stop _ rfl, ?_⟩
        refine List.pairwise_append.2 ⟨hp, List.pairwise_singleton _ _, ?_⟩
        intro a _ b hb
        simp at hb
        subst hb
        intro _
        exact ⟨rfl, rfl⟩

/-! ## Error propagation in the four functions -/

theorem Propagates.split {evs : List Event} {o : Outcome} (h : Propagates evs o)
    (pre : List Event) (ev : Event) (post : List Event) (he : evs = pre ++ ev :: post)
    (hu : uncaught ev = true) :
    o.isError = true ∧ ∀ x ∈ post, isCleanup x = true := by
  subst he
  refine ⟨h.1 ev (by simp) hu, ?_⟩
  intro x hx
  have hp := (List.pairwise_append.1 h.2).2.1
  exact (List.pairwise_cons.1 hp).1 x hx hu

/-- C6, as stated, fails: the error of the deferred statement Close is
dropped (`insertStudents1` returns nil although Close, call 7, failed), the
error of the deferred connection Close is dropped (`main2` returns nil
although Close, call 15, failed), and after a failed Bind (call 1) the
function still calls Close. -/
theorem errors_returned_counterexample :
    (insertStudents1 scriptedEngine ⟨0, [7], 0⟩).2.1.getLast?
        = some (Event.call (Call.StmtClose 0) (Ret.err ⟨"call 7 failed"⟩))
      ∧ (insertStudents1 scriptedEngine ⟨0, [7], 0⟩).2.2 = none
      ∧ (main2 scriptedEngine 5 ⟨0, [15], 0⟩).2.1.getLast?
        = some (Event.call Call.ConnClose (Ret.err ⟨"call 15 failed"⟩))
      ∧ (main2 scriptedEngine 5 ⟨0, [15], 0⟩).2.2 = Outcome.ret none
      ∧ (insertStudents1 scriptedEngine ⟨0, [1], 0⟩).2.1
        = [Event.call (Call.Prepare insertSQL []) (Ret.stmt 0),
           Event.call (Call.Bind 0 [Value.text "Bill", Value.integer 18])
             (Ret.err ⟨"call 1 failed"⟩),
           Event.call (Call.StmtClose 0) Ret.ok] := by
  decide

/-- C6, amended: in `main2`, `withTx`, `insertStudents1` and
`queryStudents1`, when an engine call other than statement Close,
connection Close and Rollback fails, the function returns a non-nil error
and every later event is one of those cleanup calls (the deferred Close
calls, and the Rollback of `withTx`). The result of `insertStudents1`, of
`queryStudents1` and of `main2` is the result of the function body: what the
deferred Close returns does not change it. -/
theorem errors_propagate {σ : Type} (E : Engine σ) (f : Work σ) (fuel : Nat) (s : σ) :
    (∀ pre ev post, (main2 E fuel s).2.1 = pre ++ ev :: post → uncaught ev = true →
        (main2 E fuel s).2.2.isError = true ∧ ∀ x ∈ post, isCleanup x = true)
      ∧ Propagates (main2 E fuel s).2.1 (main2 E fuel s).2.2
      ∧ (Propagates (f (E.Begin s).1).2.1 (f (E.Begin s).1).2.2 →
          Propagates (withTx E f s).2.1 (withTx E f s).2.2)
      ∧ Propagates (withTx E (insertWork E) s).2.1 (withTx E (insertWork E) s).2.2
      ∧ Propagates (insertStudents1 E s).2.1 (Outcome.ret (insertStudents1 E s).2.2)
      ∧ Propagates (queryStudents1 E fuel s).2.1 (queryStudents1 E fuel s).2.2
      ∧ (∀ s1 st, E.Prepare insertSQL [] s = (s1, Except.ok st) →
          (insertStudents1 E s).2.2 = (insertStudents1Body E st s1).2.2)
      ∧ (∀ s1 st, E.Prepare selectSQL [Value.integer 18] s = (s1, Except.ok st) →
          (queryStudents1 E fuel s).2.2 = (queryLoop E st fuel s1).2.2)
      ∧ (∀ s1, E.Open "mydatabase.db" s = (s1, none) →
          (main2 E fuel s).2.2 = (main2Body E fuel s1).2.2) := by
  refine ⟨fun pre ev post he hu => (main2_propagates E fuel s).split pre ev post he hu,
    main2_propagates E fuel s, withTx_propagates E f s,
    withTx_propagates E (insertWork E) s (insertWork_propagates E _),
    insertStudents1_propagates E s, queryStudents1_propagates E fuel s, ?_, ?_, ?_⟩
  · intro s1 st hp
    simp only [insertStudents1, hp]
  · intro s1 st hp
    unfold queryStudents1
    rw [hp]
    simp only []
    split
    · rename_i hq
      rw [hq]
    · rename_i hq
      rw [hq]
  · intro s1 ho
    unfold main2
    rw [ho]
    simp only []
    split
    · rename_i hq
      rw [hq]
    · rename_i hq
      rw [hq]

/-- Witness for C6, amended: in `main2` the Bind of `insertStudents1` fails
(call 4); `main2` returns an error and the events after the Bind are the
Close of the statement, the Rollback and the Close of the connection. -/
theorem errors_propagate_witness :
    (main2 scriptedEngine 5 ⟨0, [4], 0⟩).2.2
        = Outcome.ret (some
            ⟨"failed to insert students: failed to bind arguments: call 4 failed"⟩)
      ∧ (main2 scriptedEngine 5 ⟨0, [4], 0⟩).2.1 =
          [Event.call (Call.Open "mydatabase.db") Ret.ok,
           Event.call (Call.ConnExec createSQL) Ret.ok,
           Event.call Call.Begin Ret.ok,
           Event.call (Call.Prepare insertSQL []) (Ret.stmt 3)]
          ++ Event.call (Call.Bind 3 [Value.text "Bill", Value.integer 18])
               (Ret.err ⟨"call 4 failed"⟩)
            :: [Event.call (Call.StmtClose 3) Ret.ok,
                Event.call Call.Rollback Ret.ok,
                Event.call Call.ConnClose Ret.ok]
      ∧ (main2 scriptedEngine 5 ⟨0, [4], 0⟩).2.2.isError = true
      ∧ ∀ x ∈ [Event.call (Call.StmtClose 3) Ret.ok,
                Event.call Call.Rollback Ret.ok,
                Event.call Call.ConnClose Ret.ok], isCleanup x = true := by
  have h := (errors_propagate scriptedEngine (insertWork scriptedEngine) 5 ⟨0, [4], 0⟩).1
    [Event.call (Call.Open "mydatabase.db") Ret.ok,
     Event.call (Call.ConnExec createSQL) Ret.ok,
     Event.call Call.Begin Ret.ok,
     Event.call (Call.Prepare insertSQL []) (Ret.stmt 3)]
    (Event.call (Call.Bind 3 [Value.text "Bill", Value.integer 18])
      (Ret.err ⟨"call 4 failed"⟩))
    [Event.call (Call.StmtClose 3) Ret.ok,
     Event.call Call.Rollback Ret.ok,
     Event.call Call.ConnClose Ret.ok]
    (by decide) (by decide)
  exact ⟨by decide, by decide, h.1, h.2⟩

end SqliteLite
